import Mathlib

/-!
WHOIS enrichment modules of UnrealIRCD-6-mods-contrib

A shallow embedding of the geolocation WHOIS modules

* `ipinfo_io_whois/ipinfo_io_whois.c` (asynchronous remote lookup, per-IP cache),
* `m_ipinfo_whois/m_ipfinfo_whois.c` (synchronous remote lookup, per-IP cache),
* `citywhois/citywhois.c` (local MaxMind lookup and its load step),
* `m_afkmode/m_afkmode.c` (the AFK message command),
* `m_ipident/m_ipident.c` and `m_ipident.c` (ident derived from the IP),
* `listsg/listsg.c` and `m_listsg/m_listsg.c` (members of a security group),

followed by the properties established about them.

Conventions of the embedding.

* A C string is a `CStr`: the list of its bytes before the terminating NUL, one
  `Char` per byte.  A `char *` that may be `NULL` is an `Option CStr`.
* `time_t` values are `Int`; `time(NULL)` is the argument `now`.
* Code that can run into undefined behaviour (a `strcpy` past the end of a fixed
  buffer, `strlen(NULL)`, a read through a freed `Client *`) returns `Option`;
  `none` is the fault.  `malloc` is taken to succeed.
* Calls into the host (UnrealIRCd) and into libraries are recorded as traces in
  the state (`requests`, `sent`, `logs`, `lookups`, `fetched`).
* The uthash table is a list that keeps the entries of one key in the order of
  their bucket chain.  Whether an insertion makes the table expand depends on the
  hash values, so it is an argument (`expand`) of the functions that insert.
-/

namespace UnrealMods

/-- C string: its bytes up to the terminating NUL, one `Char` per byte. -/
abbrev CStr := List Char

/-- The C call `snprintf(buf, size, ...)` once the format has been expanded to
`s`: at most `size - 1` bytes are stored. -/
def snprintf (size : Nat) (s : CStr) : CStr := s.take (size - 1)

/-! ## The per-IP cache (identical in both ipinfo modules) -/

/-- The struct `CacheEntry`: `char ip[46]; char info[256]; time_t timestamp;`
(the `UT_hash_handle hh` is the table linkage, represented by the list). -/
structure CacheEntry where
  ip : CStr
  info : CStr
  timestamp : Int
deriving DecidableEq, Repr

/-- The uthash table `CacheEntry *cache`, as the list of its entries.  Entries with
the same key lie in one bucket chain, and the list keeps them in the order of that
chain (the one a lookup meets first comes first); the order between entries with
different keys carries no meaning. -/
abbrev Cache := List CacheEntry

/-- The uthash constant `HASH_BKT_CAPACITY_THRESH`: a bucket that reaches this many
items makes the table expand. -/
def HASH_BKT_CAPACITY_THRESH : Nat := 10

/-- The uthash call `HASH_ADD_STR(cache, ip, entry)`: links `entry` into the
table.  uthash does not look for an existing item with the same key, so an
earlier entry for the same IP stays in the table.  The new item is put at the
head of its bucket chain (`HASH_ADD_TO_BKT`).  When that bucket has reached
`HASH_BKT_CAPACITY_THRESH` items, `HASH_EXPAND_BUCKETS` then walks every chain from
its head and links each item at the head of its new chain, which reverses the order
of the items of every chain.  Which bucket an item falls into depends on the hash
values, so `expand` tells whether this insertion runs the expansion; it cannot with
fewer than `HASH_BKT_CAPACITY_THRESH` items in the table. -/
def HASH_ADD_STR (expand : Bool) (cache : Cache) (entry : CacheEntry) : Cache :=
  if expand && decide (HASH_BKT_CAPACITY_THRESH ≤ (entry :: cache).length) then
    (entry :: cache).reverse
  else
    entry :: cache

/-- The uthash call `HASH_FIND_STR(cache, ip, entry)`: walks the chain from its
head and yields the first item whose key equals `ip`, or `NULL`. -/
def HASH_FIND_STR (cache : Cache) (ip : CStr) : Option CacheEntry :=
  cache.find? (fun e => e.ip == ip)

/-- The uthash call `HASH_DEL(cache, entry)`: unlinks that one item. -/
def HASH_DEL (cache : Cache) (entry : CacheEntry) : Cache := cache.erase entry

/-- Source `add_to_cache` (ipinfo_io_whois.c:182, m_ipfinfo_whois.c:175).
`strcpy(entry->ip, ip)` needs `strlen(ip) < 46` and `strcpy(entry->info, info)`
needs `strlen(info) < 256`; otherwise the copy runs past the field (fault).
`expand` is passed on to `HASH_ADD_STR`. -/
def add_to_cache (expand : Bool) (now : Int) (cache : Cache) (ip info : CStr) :
    Option Cache :=
  if ip.length < 46 ∧ info.length < 256 then
    some (HASH_ADD_STR expand cache { ip := ip, info := info, timestamp := now })
  else
    none

/-- Source `find_in_cache` (ipinfo_io_whois.c:192, m_ipfinfo_whois.c:183): the
entry returned (or `NULL`) and the table afterwards. -/
def find_in_cache (now cache_duration : Int) (cache : Cache) (ip : CStr) :
    Option CacheEntry × Cache :=
  match HASH_FIND_STR cache ip with
  | some entry =>
    if now - entry.timestamp > cache_duration then
      (none, HASH_DEL cache entry)
    else
      (some entry, cache)
  | none => (none, cache)

/-- Number of entries the table holds for `ip`. -/
def entriesFor (cache : Cache) (ip : CStr) : Nat :=
  cache.countP (fun e => e.ip == ip)

/-! ## Host objects -/

/-- The fields of the host struct `Client` that the modules read.  `id` stands
for the address of the object (what a `Client *` holds). -/
structure Client where
  id : Nat
  name : CStr
  ip : Option CStr
  IsOper : Bool
  IsULine : Bool
  IsServer : Bool
  IsUser : Bool
deriving DecidableEq, Repr

/-- One item of a `NameValuePrioList` built by `add_nvplist_numeric_fmt`:
priority, item name, the client passed as `to`, the numeric, and the expanded
pattern (the host prefixes it with the server name, numeric and `to->name`). -/
structure NameValuePrio where
  priority : Int
  name : CStr
  dest : Client
  numeric : Nat
  text : CStr
deriving DecidableEq, Repr

/-- The WHOIS reply under construction. -/
abbrev NameValuePrioList := List NameValuePrio

/-- Host call `add_nvplist_numeric_fmt(list, priority, name, to, numeric, pattern, ...)`
with the pattern already expanded to `text`: one item is added to the reply. -/
def add_nvplist_numeric_fmt (list : NameValuePrioList) (priority : Int) (name : CStr)
    (dest : Client) (numeric : Nat) (text : CStr) : NameValuePrioList :=
  list ++ [{ priority := priority, name := name, dest := dest, numeric := numeric, text := text }]

/-! ## JSON values (jansson) -/

/-- A parsed jansson value `json_t`. -/
inductive Json where
  | null : Json
  | jtrue : Json
  | jfalse : Json
  | integer (n : Int) : Json
  | real (mantissa exponent : Int) : Json
  | string (s : CStr) : Json
  | array (items : List Json) : Json
  | object (members : List (CStr × Json)) : Json

/-- The jansson call `json_object_get(json, key)`: `NULL` unless `json` is an object
holding `key`. -/
def json_object_get (json : Json) (key : CStr) : Option Json :=
  match json with
  | Json.object members => (members.find? (fun kv => kv.1 == key)).map (fun kv => kv.2)
  | _ => none

/-- The jansson test `json_is_string(json)`: false for `NULL` and for every other type. -/
def json_is_string (json : Option Json) : Bool :=
  match json with
  | some (Json.string _) => true
  | _ => false

/-- The jansson call `json_string_value(json)` for a string value (the empty string
stands for the `NULL` returned otherwise, which the modules never print). -/
def json_string_value (json : Option Json) : CStr :=
  match json with
  | some (Json.string s) => s
  | _ => []

/-- The macro `API_URL`. -/
def API_URL : CStr := "https://ipinfo.io/".toList

/-! ## ipinfo_io_whois: asynchronous remote lookup -/

/-- Request methods of the host URL API. -/
inductive HttpMethod where
  | HTTP_METHOD_NONE
  | HTTP_METHOD_GET
  | HTTP_METHOD_POST
deriving DecidableEq, Repr

/-- The fields of the host struct `OutgoingWebRequest` the module sets;
`callback_data` is a `Client *`. -/
structure OutgoingWebRequest where
  url : CStr
  http_method : HttpMethod
  apicallback : CStr
  callback_data : Nat
deriving DecidableEq, Repr

/-- The fields of the host struct `OutgoingWebResponse` the module reads. -/
structure OutgoingWebResponse where
  errorbuf : Option CStr
  memory : Option CStr
deriving DecidableEq, Repr

/-- One `unreal_log` event: event id, the logged IP, the logged error text. -/
structure LogEvent where
  event : CStr
  ip : Option CStr
  error : CStr
deriving DecidableEq, Repr

/-- Globals of ipinfo_io_whois.c (`muhcfg.apikey`, `cache`, `cache_duration`)
together with what it touches in the host: the live `Client` objects,
`me.name`, the requests given to `url_start_async`, the lines given to
`sendto_one` (recipient address, line) and the log. -/
structure IpinfoIo where
  apikey : CStr
  cache : Cache
  cache_duration : Int
  clients : List Client
  me_name : CStr
  requests : List OutgoingWebRequest
  sent : List (Nat × CStr)
  logs : List LogEvent
deriving DecidableEq, Repr

/-- Reading through a `Client *`: the live object at that address, `none` when
the object has been freed. -/
def deref (clients : List Client) (p : Nat) : Option Client :=
  clients.find? (fun c => c.id == p)

/-- Source `ipinfo_io_whois_callback` (ipinfo_io_whois.c:220).  `json_loads` is the
jansson parser, `expand` tells whether the insertion into the cache makes the uthash
table expand.  The local `nvplist` built at line 255 is never handed to anyone and
has no effect. -/
def ipinfo_io_whois_callback (json_loads : CStr → Option Json) (expand : Bool) (now : Int)
    (st : IpinfoIo)
    (request : OutgoingWebRequest) (response : OutgoingWebResponse) : Option IpinfoIo :=
  let acptr := deref st.clients request.callback_data
  if response.errorbuf.isSome || response.memory.isNone then
    match acptr with
    | none => none
    | some acptr =>
      some { st with logs := st.logs ++
        [{ event := "IPINFO_IO_WHOIS_BAD_RESPONSE".toList, ip := acptr.ip,
           error := response.errorbuf.getD "No data (body) returned".toList }] }
  else
    match json_loads (response.memory.getD []) with
    | none => some st
    | some root =>
      let city := json_object_get root "city".toList
      let region := json_object_get root "region".toList
      let country := json_object_get root "country".toList
      let org := json_object_get root "org".toList
      if json_is_string city && json_is_string region && json_is_string country
          && json_is_string org then
        let result_info := snprintf 256
          ("City: ".toList ++ json_string_value city ++ ", Region: ".toList
            ++ json_string_value region ++ ", Country: ".toList ++ json_string_value country
            ++ ", Org: ".toList ++ json_string_value org)
        match acptr with
        | none => none
        | some acptr =>
          match acptr.ip with
          | none => none
          | some ip =>
            match add_to_cache expand now st.cache ip result_info with
            | none => none
            | some cache1 =>
              let requester := acptr
              some { st with
                cache := cache1,
                sent := st.sent ++ [(requester.id,
                  ":".toList ++ st.me_name ++ " 320 ".toList ++ requester.name ++ " ".toList
                    ++ acptr.name ++ " :is connecting from ".toList ++ result_info)] }
      else
        some st

/-- Source `ipinfo_io_whois_whois` (ipinfo_io_whois.c:263).  `find_in_cache(acptr->ip)`
takes `strlen` of its argument, a fault when `acptr->ip` is `NULL`. -/
def ipinfo_io_whois_whois (now : Int) (st : IpinfoIo) (requester acptr : Client)
    (list : NameValuePrioList) : Option (IpinfoIo × NameValuePrioList) :=
  if !requester.IsOper || acptr.IsULine || acptr.IsServer then
    some (st, list)
  else
    match acptr.ip with
    | none => none
    | some ip =>
      match find_in_cache now st.cache_duration st.cache ip with
      | (some cached, cache1) =>
        some ({ st with cache := cache1 },
          add_nvplist_numeric_fmt list 320 "city".toList acptr 320
            (acptr.name ++ " :is connecting from ".toList ++ cached.info))
      | (none, cache1) =>
        let url := snprintf 256 (API_URL ++ ip ++ "?token=".toList ++ st.apikey)
        let w : OutgoingWebRequest :=
          { url := url, http_method := HttpMethod.HTTP_METHOD_GET,
            apicallback := "ipinfo_io_whois_callback".toList, callback_data := acptr.id }
        some ({ st with cache := cache1, requests := st.requests ++ [w] }, list)

/-! ## m_ipinfo_whois: synchronous remote lookup -/

/-- Globals of m_ipfinfo_whois.c (`muhcfg.apikey`, `cache`, `cache_duration`) and the
URLs it has handed to `curl_easy_perform`. -/
structure IpinfoSync where
  apikey : CStr
  cache : Cache
  cache_duration : Int
  fetched : List CStr
deriving DecidableEq, Repr

/-- Source `ipinfo_whois_whois` (m_ipfinfo_whois.c:202).  `curl_easy_init` tells whether
a handle was obtained, `curl_easy_perform` gives the body received when the result is
`CURLE_OK`, `json_loads` is the jansson parser, `expand` tells whether the insertion
into the cache makes the uthash table expand; `now` is the clock at the cache lookup
and `now2` the clock when the transfer has finished. -/
def ipinfo_whois_whois (curl_easy_init : Bool) (curl_easy_perform : CStr → Option CStr)
    (json_loads : CStr → Option Json) (expand : Bool) (now now2 : Int) (st : IpinfoSync)
    (requester acptr : Client) (list : NameValuePrioList) :
    Option (IpinfoSync × NameValuePrioList) :=
  if !requester.IsOper || acptr.IsULine || acptr.IsServer then
    some (st, list)
  else
    match acptr.ip with
    | none => none
    | some ip =>
      match find_in_cache now st.cache_duration st.cache ip with
      | (some cached, cache1) =>
        some ({ st with cache := cache1 },
          add_nvplist_numeric_fmt list 320 "city".toList acptr 320
            (acptr.name ++ " :is connecting from ".toList ++ cached.info))
      | (none, cache1) =>
        if curl_easy_init then
          let url := snprintf 256 (API_URL ++ ip ++ "?token=".toList ++ st.apikey)
          let st1 := { st with cache := cache1, fetched := st.fetched ++ [url] }
          match curl_easy_perform url with
          | none => some (st1, list)
          | some memory =>
            match json_loads memory with
            | none => some (st1, list)
            | some root =>
              let city := json_object_get root "city".toList
              let region := json_object_get root "region".toList
              let country := json_object_get root "country".toList
              let org := json_object_get root "org".toList
              if json_is_string city && json_is_string region && json_is_string country
                  && json_is_string org then
                let result_info := snprintf 256
                  ("City: ".toList ++ json_string_value city ++ ", Region: ".toList
                    ++ json_string_value region ++ ", Country: ".toList
                    ++ json_string_value country ++ ", Org: ".toList ++ json_string_value org)
                match add_to_cache expand now2 st1.cache ip result_info with
                | none => none
                | some cache2 =>
                  some ({ st1 with cache := cache2 },
                    add_nvplist_numeric_fmt list 320 "city".toList acptr 320
                      (acptr.name ++ " :is connecting from ".toList ++ result_info))
              else
                some (st1, list)
        else
          some ({ st with cache := cache1 }, list)

/-! ## citywhois: local MaxMind lookup -/

/-- What libmaxminddb answers for one address: the out-parameters and result of
`MMDB_lookup_string`, then the status and data of
`MMDB_get_value(&result.entry, &city_data, "city", "names", "en", NULL)`.
`utf8_string` holds the `data_size` bytes of the value (not NUL-terminated). -/
structure MMDB_lookup where
  gai_error : Int
  mmdb_error : Int
  found_entry : Bool
  exit_code : Int
  has_data : Bool
  utf8_string : CStr
deriving DecidableEq, Repr

/-- The libmaxminddb status `MMDB_SUCCESS`. -/
def MMDB_SUCCESS : Int := 0

/-- The global `citywhois_config` (the `MMDB_s` handle is the lookup function given to
`citywhois_whois`), with the trace of `MMDB_lookup_string` calls and of `unreal_log`
messages. -/
structure CityWhoisConfig where
  db_path : Option CStr
  db_loaded : Bool
  lookups : List CStr
  logs : List CStr
deriving DecidableEq, Repr

/-- The conversion `%.*s` with precision `data_size` applied to a buffer of
`data_size` bytes: the bytes up to the first NUL, if there is one. -/
def fmt_precision_s (data : CStr) : CStr := data.takeWhile (fun c => c != Char.ofNat 0)

/-- Source `citywhois_whois` (citywhois.c:142).  `mmdb` is the opened database. -/
def citywhois_whois (mmdb : CStr → MMDB_lookup) (cfg : CityWhoisConfig)
    (requester acptr : Client) (list : NameValuePrioList) :
    CityWhoisConfig × NameValuePrioList :=
  if !requester.IsOper then (cfg, list)
  else if !acptr.IsUser then (cfg, list)
  else
    match acptr.ip with
    | some (c :: cs) =>
      let ip := c :: cs
      if !cfg.db_loaded then
        ({ cfg with logs := cfg.logs ++ ["CityWhois: MaxMind DB not loaded.".toList] }, list)
      else
        let result := mmdb ip
        let cfg1 := { cfg with lookups := cfg.lookups ++ [ip] }
        if result.gai_error != 0 then
          ({ cfg1 with logs := cfg1.logs ++ ["CityWhois: getaddrinfo error".toList] }, list)
        else if result.mmdb_error != MMDB_SUCCESS then
          ({ cfg1 with logs := cfg1.logs ++ ["CityWhois: libmaxminddb error".toList] }, list)
        else if result.found_entry then
          if result.exit_code == MMDB_SUCCESS && result.has_data then
            let city := snprintf 256 (fmt_precision_s result.utf8_string)
            (cfg1, add_nvplist_numeric_fmt list 320 "city".toList acptr 320
              (acptr.name ++ " :is connecting from City: ".toList ++ city))
          else
            (cfg1, add_nvplist_numeric_fmt list 320 "city".toList acptr 320
              (acptr.name ++ " :is connecting from an unknown city".toList))
        else
          (cfg1, add_nvplist_numeric_fmt list 320 "city".toList acptr 320
            (acptr.name ++ " :is connecting from an unknown location".toList))
    | _ =>
      (cfg, add_nvplist_numeric_fmt list 320 "city".toList acptr 320
        (acptr.name ++ " :No IP found!!".toList))

/-! ## citywhois: the load step -/

/-- The host value `MOD_SUCCESS`. -/
def MOD_SUCCESS : Int := 0

/-- The host value `MOD_FAILED`. -/
def MOD_FAILED : Int := -1

/-- What one run of the load step leaves behind: the value returned, the
configuration afterwards, the paths handed to `MMDB_open` during the run, and the
messages given to `config_error`. -/
structure LoadOutcome where
  status : Int
  config : CityWhoisConfig
  opened : List CStr
  errors : List CStr
deriving DecidableEq, Repr

/-- Source `MOD_LOAD` of citywhois.c (line 45).  `MMDB_open` gives the status of
opening the file at a path (`MMDB_SUCCESS` when it could be mapped). -/
def citywhois_MOD_LOAD (MMDB_open : CStr → Int) (cfg : CityWhoisConfig) : LoadOutcome :=
  match cfg.db_path with
  | some db_path =>
    if !cfg.db_loaded then
      let status := MMDB_open db_path
      if status != MMDB_SUCCESS then
        { status := MOD_FAILED, config := cfg, opened := [db_path],
          errors := ["CityWhois: Failed to open MaxMind DB".toList] }
      else
        { status := MOD_SUCCESS, config := { cfg with db_loaded := true },
          opened := [db_path], errors := [] }
    else
      { status := MOD_SUCCESS, config := cfg, opened := [], errors := [] }
  | none => { status := MOD_SUCCESS, config := cfg, opened := [], errors := [] }

/-! ## m_afkmode: the AFK message command -/

/-- The macro `MAX_AFK_MESSAGE_LENGTH`. -/
def MAX_AFK_MESSAGE_LENGTH : Nat := 256

/-- The struct `UserAFKInfo`: `int afk; char *message;`. -/
structure UserAFKInfo where
  afk : Int
  message : Option CStr
deriving DecidableEq, Repr

/-- The client that issued a command, as m_afkmode.c sees it: `MyUser(client)`,
`IsULine(client)`, the module data slot `CLIENT_AFK_INFO(client)` (`NULL` until first
use) and the notices sent to it with `sendnotice`. -/
structure AfkClient where
  MyUser : Bool
  IsULine : Bool
  afk_info : Option UserAFKInfo
  notices : List CStr
deriving DecidableEq, Repr

/-- Source `cmd_afk_message` (m_afkmode.c:99).  `parv` is the parameter array, entry 0
being the slot before the first parameter; reading `parv[1]` when it is `NULL` or
beyond the array is a fault.  `safe_alloc` gives a zeroed `UserAFKInfo`. -/
def cmd_afk_message (client : AfkClient) (parc : Int) (parv : List (Option CStr)) :
    Option AfkClient :=
  if !client.MyUser || client.IsULine then some client
  else if parc < 2 then
    some { client with notices := client.notices ++ ["Usage: /afk-message <message>".toList] }
  else
    match parv.getD 1 none with
    | none => none
    | some message =>
      if message.length > MAX_AFK_MESSAGE_LENGTH then
        some { client with notices := client.notices ++
          ["AFK message is too long. Please use a message shorter than 256 characters.".toList] }
      else
        let info := client.afk_info.getD { afk := 0, message := none }
        some { client with
          afk_info := some { info with message := some message },
          notices := client.notices ++ ["AFK message set.".toList] }

/-! ## m_ipident: ident derived from the IP -/

/-- The OpenSSL constant `SHA256_DIGEST_LENGTH`. -/
def SHA256_DIGEST_LENGTH : Nat := 32

/-- The host constant `USERLEN` (`username` is `char[USERLEN + 1]`). -/
def USERLEN : Nat := 10

/-- The global `cloak_config` once `m_ipident_configrun` has run: the configured keys;
`key_count` is their number. -/
structure CloakConfig where
  keys : List CStr
deriving DecidableEq, Repr

/-- The fields of the connecting client that m_ipident.c touches: `client->ip`, and
`client->user->username` (`none` when `client->user` is `NULL`). -/
structure IdentClient where
  ip : Option CStr
  user : Option CStr
deriving DecidableEq, Repr

/-- The C call `strlcpy(dst, src, size)`: at most `size - 1` bytes are copied. -/
def strlcpy (src : CStr) (size : Nat) : CStr := src.take (size - 1)

/-- The byte `combined_hash[j]` read as `unsigned char` after
`snprintf(combined_hash, sizeof(combined_hash), "%s%s", ip, key)` has stored the string
`stored`: a byte of the string, the terminating NUL right behind it, and beyond that
whatever the buffer held before (`stack j`), since the array is not initialised. -/
def combined_hash_byte (stored : CStr) (stack : Nat → Nat) (j : Nat) : Nat :=
  match stored[j]? with
  | some c => c.toNat % 256
  | none => if j = stored.length then 0 else stack j % 256

/-- The character the loop of `set_crypto_ip_based_ident` stores in `ident[i]` for the
byte `byte`: a letter for `i < 6`, a digit otherwise. -/
def ident_char (i : Nat) (byte : Nat) : Char :=
  if i < 6 then
    if byte % 2 == 0 then Char.ofNat (97 + byte % 26) else Char.ofNat (65 + byte % 26)
  else
    Char.ofNat (48 + byte % 10)

/-- Source `set_crypto_ip_based_ident` (m_ipident/m_ipident.c:165, m_ipident.c:146).
`SHA256` is the OpenSSL digest (computed into `hash`, which is not read afterwards),
`rand` the value returned by `rand()`, `stack` the prior contents of `combined_hash`. -/
def set_crypto_ip_based_ident (SHA256 : CStr → List Nat) (rand : Nat) (stack : Nat → Nat)
    (cloak_config : CloakConfig) (client : IdentClient) : IdentClient :=
  match client.ip, client.user with
  | some ip, some _ =>
    if cloak_config.keys.length == 0 then client
    else
      let _hash := SHA256 ip
      let cloak_key := cloak_config.keys.getD (rand % cloak_config.keys.length) []
      let combined_hash := snprintf (SHA256_DIGEST_LENGTH + 64 + 1) (ip ++ cloak_key)
      let ident := (List.range 9).map (fun i =>
        ident_char i (combined_hash_byte combined_hash stack (i % (SHA256_DIGEST_LENGTH + 64))))
      { client with user := some (strlcpy ident (USERLEN + 1)) }
  | _, _ => client

/-! ## listsg: members of a security group -/

/-- The macro `MAX_BUFFER_SIZE`. -/
def MAX_BUFFER_SIZE : Nat := 512

/-- The macro `MAX_NICKNAMES_PER_LINE`. -/
def MAX_NICKNAMES_PER_LINE : Nat := 10

/-- The C call `strlcat(dst, src, size)` for a `dst` shorter than `size`: the result
holds at most `size - 1` bytes. -/
def strlcat (dst src : CStr) (size : Nat) : CStr := (dst ++ src).take (size - 1)

/-- The locals of `list_members_of_security_group` during the loop, and the notices
sent so far. -/
structure SgState where
  buffer : CStr
  nickname_count : Nat
  member_found : Bool
  notices : List CStr
deriving DecidableEq, Repr

/-- One pass of the loop body of `list_members_of_security_group` (listsg.c:115-129) for
the client `target`; `allowed` is `user_allowed_by_security_group_name(target, groupname)`. -/
def sg_loop_body (allowed : Client → Bool) (s : SgState) (target : Client) : SgState :=
  if allowed target then
    let buffer1 :=
      if s.nickname_count > 0 then strlcat s.buffer ", ".toList MAX_BUFFER_SIZE else s.buffer
    let buffer2 := strlcat buffer1 target.name MAX_BUFFER_SIZE
    let nickname_count := s.nickname_count + 1
    if buffer2.length ≥ MAX_BUFFER_SIZE - 50 || nickname_count ≥ MAX_NICKNAMES_PER_LINE then
      { buffer := [], nickname_count := 0, member_found := true,
        notices := s.notices ++ ["- ".toList ++ buffer2] }
    else
      { buffer := buffer2, nickname_count := nickname_count, member_found := true,
        notices := s.notices }
  else s

/-- Source `list_members_of_security_group` (listsg.c:99, m_listsg.c:83): the notices
sent to the caller.  `find_security_group` tells whether the group exists,
`user_allowed_by_security_group_name` is the host test, `lclient_list` the local
clients in list order. -/
def list_members_of_security_group (find_security_group : CStr → Bool)
    (user_allowed_by_security_group_name : Client → CStr → Bool)
    (lclient_list : List Client) (groupname : CStr) : List CStr :=
  if !find_security_group groupname then
    ["Security group ".toList ++ groupname ++ " does not exist.".toList]
  else
    let s0 : SgState :=
      { buffer := [], nickname_count := 0, member_found := false,
        notices := ["Members of security group ".toList ++ groupname ++ ":".toList] }
    let s1 := lclient_list.foldl
      (sg_loop_body (fun target => user_allowed_by_security_group_name target groupname)) s0
    let notices1 :=
      if s1.nickname_count > 0 then s1.notices ++ ["- ".toList ++ s1.buffer] else s1.notices
    if !s1.member_found then
      notices1 ++ ["Security group ".toList ++ groupname ++ " has no members.".toList]
    else notices1

/-! ## Sample objects used to run the code on concrete inputs -/

/-- An IRC operator. -/
def alice : Client :=
  { id := 1, name := "alice".toList, ip := some "198.51.100.7".toList,
    IsOper := true, IsULine := false, IsServer := false, IsUser := true }

/-- An ordinary user. -/
def bob : Client :=
  { id := 2, name := "bob".toList, ip := some "203.0.113.5".toList,
    IsOper := false, IsULine := false, IsServer := false, IsUser := true }

/-- A user whose IP is not known (`ip` is `NULL`). -/
def carol : Client :=
  { id := 3, name := "carol".toList, ip := none,
    IsOper := false, IsULine := false, IsServer := false, IsUser := true }

/-- A complete answer of the remote service, parsed. -/
def sampleRoot : Json :=
  Json.object [("ip".toList, Json.string "203.0.113.5".toList),
    ("city".toList, Json.string "Paris".toList),
    ("region".toList, Json.string "IDF".toList),
    ("country".toList, Json.string "FR".toList),
    ("org".toList, Json.string "ExampleNet".toList)]

/-- An answer of the remote service without the organization, parsed. -/
def sampleRootNoOrg : Json :=
  Json.object [("ip".toList, Json.string "203.0.113.5".toList),
    ("city".toList, Json.string "Paris".toList),
    ("region".toList, Json.string "IDF".toList),
    ("country".toList, Json.string "FR".toList)]

/-- A stand-in for the jansson parser that knows two bodies. -/
def sample_json_loads (body : CStr) : Option Json :=
  if body = "complete-body".toList then some sampleRoot
  else if body = "body-without-org".toList then some sampleRootNoOrg
  else none

/-- A stand-in for the transfer: every URL answers with the complete body. -/
def sample_curl_perform (_url : CStr) : Option CStr := some "complete-body".toList

/-- A stand-in for the transfer: every URL answers with the body lacking `org`. -/
def sample_curl_perform_no_org (_url : CStr) : Option CStr := some "body-without-org".toList

/-- State of ipinfo_io_whois with an empty cache, ttl 100, and alice and bob connected. -/
def sampleIo : IpinfoIo :=
  { apikey := "KEY".toList, cache := [], cache_duration := 100, clients := [alice, bob],
    me_name := "irc.example.org".toList, requests := [], sent := [], logs := [] }

/-- State of m_ipinfo_whois with an empty cache and ttl 100. -/
def sampleSync : IpinfoSync :=
  { apikey := "KEY".toList, cache := [], cache_duration := 100, fetched := [] }

/-- The request that `ipinfo_io_whois_whois` registers for a WHOIS on bob. -/
def sampleRequest : OutgoingWebRequest :=
  { url := "https://ipinfo.io/203.0.113.5?token=KEY".toList,
    http_method := HttpMethod.HTTP_METHOD_GET,
    apicallback := "ipinfo_io_whois_callback".toList, callback_data := 2 }

/-- The rendered string for `sampleRoot`. -/
def sampleInfo : CStr := "City: Paris, Region: IDF, Country: FR, Org: ExampleNet".toList

/-- A stand-in for an opened MaxMind database: one address with an English city name,
one address with an entry but no city name, one address whose city name is 255 times
`a` followed by `z` (256 bytes), one address whose city name holds a NUL byte, every
other address absent. -/
def sample_mmdb (ip : CStr) : MMDB_lookup :=
  if ip = "203.0.113.5".toList then
    { gai_error := 0, mmdb_error := 0, found_entry := true, exit_code := 0,
      has_data := true, utf8_string := "Paris".toList }
  else if ip = "198.51.100.7".toList then
    { gai_error := 0, mmdb_error := 0, found_entry := true, exit_code := 1,
      has_data := false, utf8_string := [] }
  else if ip = "192.0.2.1".toList then
    { gai_error := 0, mmdb_error := 0, found_entry := true, exit_code := 0,
      has_data := true, utf8_string := List.replicate 255 'a' ++ ['z'] }
  else if ip = "192.0.2.2".toList then
    { gai_error := 0, mmdb_error := 0, found_entry := true, exit_code := 0,
      has_data := true, utf8_string := "Par".toList ++ [Char.ofNat 0] ++ "is".toList }
  else
    { gai_error := 0, mmdb_error := 0, found_entry := false, exit_code := 0,
      has_data := false, utf8_string := [] }

/-- The configuration of citywhois once the database has been opened. -/
def sampleCity : CityWhoisConfig :=
  { db_path := some "/var/lib/GeoLite2-City.mmdb".toList, db_loaded := true,
    lookups := [], logs := [] }

/-- The configuration of citywhois with the path set and the database not opened. -/
def sampleCityUnloaded : CityWhoisConfig :=
  { db_path := some "/var/lib/GeoLite2-City.mmdb".toList, db_loaded := false,
    lookups := [], logs := [] }

/-- A stand-in for `MMDB_open` on a readable database file. -/
def sample_MMDB_open_ok (_path : CStr) : Int := 0

/-- A stand-in for `MMDB_open` on a file that cannot be opened
(`MMDB_FILE_OPEN_ERROR`). -/
def sample_MMDB_open_bad (_path : CStr) : Int := 1

/-- A local user in AFK mode with a stored message. -/
def dave : AfkClient :=
  { MyUser := true, IsULine := false,
    afk_info := some { afk := 1, message := some "lunch".toList }, notices := [] }

/-- A parsed answer whose organization is 300 bytes long. -/
def sampleRootLong : Json :=
  Json.object [("city".toList, Json.string "Paris".toList),
    ("region".toList, Json.string "IDF".toList),
    ("country".toList, Json.string "FR".toList),
    ("org".toList, Json.string (List.replicate 300 'o'))]

/-- A stand-in for the jansson parser that yields the answer with the long organization. -/
def sample_json_loads_long (_body : CStr) : Option Json := some sampleRootLong

/-- A connecting user with a nine-character address and the ident given by identd. -/
def erin : IdentClient := { ip := some "127.0.0.1".toList, user := some "erin".toList }

/-- A connecting user with a short address. -/
def frank : IdentClient := { ip := some "::1".toList, user := some "frank".toList }

/-- A stand-in for the digest: 32 zero bytes. -/
def sample_SHA256 (_data : CStr) : List Nat := List.replicate 32 0

/-- Prior contents of the buffer on the stack: the byte 255 everywhere. -/
def sample_stack (_j : Nat) : Nat := 255

/-- A stand-in for the host test of group membership: every client that is not an
operator is allowed, whatever the group. -/
def sample_user_allowed (target : Client) (_groupname : CStr) : Bool := !target.IsOper

/-- A stand-in for `find_security_group`: only the group `known-users` exists. -/
def sample_find_security_group (groupname : CStr) : Bool :=
  groupname == "known-users".toList

/-- Nine entries for one address, all put at time 0 with the same string: what nine
insertions for that address leave in an empty table. -/
def nineEntries (ip info : CStr) : Cache :=
  List.replicate 9 { ip := ip, info := info, timestamp := 0 }

/-! ## Properties of the cache -/

/-- The entry found by `HASH_FIND_STR` carries the key that was asked for. -/
theorem HASH_FIND_STR_key {cache : Cache} {ip : CStr} {e : CacheEntry}
    (h : HASH_FIND_STR cache ip = some e) : e.ip = ip := by
  have := List.find?_some h
  simpa using this

/-- Unlinking the entry that `HASH_FIND_STR` found leaves one entry fewer for that key. -/
theorem entriesFor_HASH_DEL {cache : Cache} {ip : CStr} {e : CacheEntry}
    (h : HASH_FIND_STR cache ip = some e) :
    entriesFor (HASH_DEL cache e) ip + 1 = entriesFor cache ip := by
  induction cache with
  | nil => simp [HASH_FIND_STR] at h
  | cons x xs ih =>
    unfold HASH_FIND_STR at h
    by_cases hx : x.ip = ip
    · have hxe : x = e := by simpa [List.find?_cons, hx] using h
      subst hxe
      simp [HASH_DEL, entriesFor, hx]
    · have hfind : HASH_FIND_STR xs ip = some e := by
        simpa [HASH_FIND_STR, List.find?_cons, hx] using h
      have hne : ¬ x = e := by
        intro hxe
        exact hx (hxe ▸ HASH_FIND_STR_key hfind)
      have ih1 := ih hfind
      have herase : (x :: xs).erase e = x :: xs.erase e := by
        rw [List.erase_cons]
        simp [hne]
      simp only [HASH_DEL, entriesFor] at ih1 ⊢
      rw [herase]
      simp [List.countP_cons, hx]
      simpa using ih1

/-- A table with no entry for a key yields `NULL` for it. -/
theorem HASH_FIND_STR_of_entriesFor_zero {cache : Cache} {ip : CStr}
    (h : entriesFor cache ip = 0) : HASH_FIND_STR cache ip = none := by
  unfold entriesFor at h
  unfold HASH_FIND_STR
  rw [List.find?_eq_none]
  rw [List.countP_eq_zero] at h
  exact h

/-- An insertion that does not run the expansion puts the new entry in front. -/
theorem HASH_ADD_STR_of_no_expand {expand : Bool} {cache : Cache} (entry : CacheEntry)
    (h : expand = false ∨ cache.length < 9) :
    HASH_ADD_STR expand cache entry = entry :: cache := by
  unfold HASH_ADD_STR
  rcases h with h | h
  · rw [h]
    rfl
  · have hlt : decide (HASH_BKT_CAPACITY_THRESH ≤ (entry :: cache).length) = false := by
      apply decide_eq_false
      simp only [HASH_BKT_CAPACITY_THRESH, List.length_cons]
      omega
    rw [hlt, Bool.and_false]
    rfl

/-- After an insertion the table holds the new entry and the old ones, in some order. -/
theorem HASH_ADD_STR_perm (expand : Bool) (cache : Cache) (entry : CacheEntry) :
    (HASH_ADD_STR expand cache entry).Perm (entry :: cache) := by
  unfold HASH_ADD_STR
  split
  · exact List.reverse_perm _
  · exact List.Perm.refl _

/-- An insertion adds one entry for its key and none for any other, expanding or not. -/
theorem entriesFor_HASH_ADD_STR (expand : Bool) (cache : Cache) (entry : CacheEntry)
    (ip : CStr) :
    entriesFor (HASH_ADD_STR expand cache entry) ip = entriesFor (entry :: cache) ip :=
  (HASH_ADD_STR_perm expand cache entry).countP_eq _

/-- An entry that is the only one for its key is the one the lookup finds, wherever it
lies in the table. -/
theorem HASH_FIND_STR_of_unique {cache : Cache} {ip : CStr} {e : CacheEntry}
    (hmem : e ∈ cache) (hkey : e.ip = ip) (hone : entriesFor cache ip ≤ 1) :
    HASH_FIND_STR cache ip = some e := by
  induction cache with
  | nil => simp at hmem
  | cons x xs ih =>
    unfold entriesFor at hone ih
    unfold HASH_FIND_STR at ih ⊢
    by_cases hx : x.ip = ip
    · have hxs : List.countP (fun a => a.ip == ip) xs = 0 := by
        rw [List.countP_cons_of_pos _ _ (by simpa using hx)] at hone
        omega
      have hxe : e = x := by
        rcases List.mem_cons.mp hmem with h | h
        · exact h
        · have hpos : 0 < List.countP (fun a => a.ip == ip) xs :=
            List.countP_pos_iff.mpr ⟨e, h, by simpa using hkey⟩
          omega
      rw [hxe]
      simp [List.find?_cons, hx]
    · have hne : e ≠ x := fun h => hx (h ▸ hkey)
      have hmem1 : e ∈ xs := by
        rcases List.mem_cons.mp hmem with h | h
        · exact absurd h hne
        · exact h
      rw [List.countP_cons_of_neg _ _ (by simpa using hx)] at hone
      rw [List.find?_cons]
      simp only [show (x.ip == ip) = false from by simpa using hx]
      exact ih hmem1 hone

/-- For a key held at most once, the lookup does not depend on the order of the table. -/
theorem HASH_FIND_STR_perm_of_le_one {c1 c2 : Cache} {ip : CStr} (hperm : c1.Perm c2)
    (hone : entriesFor c1 ip ≤ 1) : HASH_FIND_STR c1 ip = HASH_FIND_STR c2 ip := by
  have hcount : entriesFor c2 ip = entriesFor c1 ip := (hperm.countP_eq _).symm
  by_cases hzero : entriesFor c1 ip = 0
  · rw [HASH_FIND_STR_of_entriesFor_zero hzero,
      HASH_FIND_STR_of_entriesFor_zero (by rw [hcount]; exact hzero)]
  · have hpos : 0 < List.countP (fun a => a.ip == ip) c1 := by
      unfold entriesFor at hzero
      omega
    obtain ⟨e, hmem, hkey⟩ := List.countP_pos_iff.mp hpos
    have hkey1 : e.ip = ip := by simpa using hkey
    rw [HASH_FIND_STR_of_unique hmem hkey1 hone,
      HASH_FIND_STR_of_unique (hperm.mem_iff.mp hmem) hkey1 (by rw [hcount]; exact hone)]

/-- The lookup right after an insertion finds the new entry when the table held no
entry for its key before, or when the insertion does not run the expansion. -/
theorem HASH_FIND_STR_HASH_ADD_STR_self (expand : Bool) (cache : Cache)
    (entry : CacheEntry)
    (hsafe : entriesFor cache entry.ip = 0 ∨ expand = false ∨ cache.length < 9) :
    HASH_FIND_STR (HASH_ADD_STR expand cache entry) entry.ip = some entry := by
  rcases hsafe with h | h
  · apply HASH_FIND_STR_of_unique
    · exact (HASH_ADD_STR_perm expand cache _).mem_iff.mpr (List.mem_cons_self _ _)
    · rfl
    · rw [entriesFor_HASH_ADD_STR]
      unfold entriesFor at h ⊢
      rw [List.countP_cons_of_pos _ _ (by simp), h]
  · rw [HASH_ADD_STR_of_no_expand _ h]
    simp [HASH_FIND_STR, List.find?_cons]

/-- C1, as stated, fails on a table that already holds the IP: after nine insertions
for one address (they cannot expand the table), the tenth brings its bucket to
`HASH_BKT_CAPACITY_THRESH` items, the expansion reverses the chain, and the lookup
within the TTL returns the oldest entry, whose string is not the one just put. -/
theorem add_to_cache_expanding_finds_older :
    (List.range 9).foldl
        (fun c _ => c.bind (fun c1 => add_to_cache false 0 c1 "203.0.113.5".toList "old".toList))
        (some [])
      = some (nineEntries "203.0.113.5".toList "old".toList) ∧
    add_to_cache true 10 (nineEntries "203.0.113.5".toList "old".toList)
        "203.0.113.5".toList "new".toList
      = some (nineEntries "203.0.113.5".toList "old".toList
          ++ [{ ip := "203.0.113.5".toList, info := "new".toList, timestamp := 10 }]) ∧
    find_in_cache 50 100
        (nineEntries "203.0.113.5".toList "old".toList
          ++ [{ ip := "203.0.113.5".toList, info := "new".toList, timestamp := 10 }])
        "203.0.113.5".toList
      = (some { ip := "203.0.113.5".toList, info := "old".toList, timestamp := 0 },
         nineEntries "203.0.113.5".toList "old".toList
          ++ [{ ip := "203.0.113.5".toList, info := "new".toList, timestamp := 10 }]) ∧
    "old".toList ≠ "new".toList := by
  refine ⟨by decide, by decide, by decide, by decide⟩

/-- C1, amended.  For every IP shorter than 46 bytes and every rendered string shorter
than 256 bytes, `add_to_cache(ip, info)` at time `t0` succeeds, and `find_in_cache(ip)`
at any time `t` with `t - t0 ≤ cache_duration` (so in particular with
`0 ≤ t - t0 ≤ cache_duration`) returns the entry just put, a hit whose `info` is
exactly the string that was put (and the read leaves the table as it was), provided
the table held no entry for that IP before the insertion or the insertion does not
expand the table (it cannot while the table holds fewer than ten entries). -/
theorem add_to_cache_find_in_cache_hit (expand : Bool) (cache : Cache)
    (cache_duration t0 t : Int) (ip info : CStr)
    (hip : ip.length < 46) (hinfo : info.length < 256)
    (h1 : t - t0 ≤ cache_duration)
    (hsafe : entriesFor cache ip = 0 ∨ expand = false ∨ cache.length < 9) :
    ∃ cache1, add_to_cache expand t0 cache ip info = some cache1 ∧
      find_in_cache t cache_duration cache1 ip
        = (some { ip := ip, info := info, timestamp := t0 }, cache1) := by
  refine ⟨HASH_ADD_STR expand cache { ip := ip, info := info, timestamp := t0 }, ?_, ?_⟩
  · simp [add_to_cache, hip, hinfo]
  · have hnot : ¬ (t - t0 > cache_duration) := by omega
    have hfind : HASH_FIND_STR
        (HASH_ADD_STR expand cache { ip := ip, info := info, timestamp := t0 }) ip
        = some { ip := ip, info := info, timestamp := t0 } :=
      HASH_FIND_STR_HASH_ADD_STR_self expand cache
        { ip := ip, info := info, timestamp := t0 } hsafe
    simp [find_in_cache, hfind, hnot]

/-- C1, amended, at the scenario of the specification: ttl 100, put at 0 into an empty
table, get at 50. -/
theorem add_to_cache_find_in_cache_hit_witness :
    ∃ cache1,
      add_to_cache true 0 [] "203.0.113.5".toList
          "City: Paris, Region: IDF, Country: FR, Org: ExampleNet".toList = some cache1 ∧
      find_in_cache 50 100 cache1 "203.0.113.5".toList
        = (some { ip := "203.0.113.5".toList,
                  info := "City: Paris, Region: IDF, Country: FR, Org: ExampleNet".toList,
                  timestamp := 0 }, cache1) :=
  add_to_cache_find_in_cache_hit true [] 100 0 50 "203.0.113.5".toList
    "City: Paris, Region: IDF, Country: FR, Org: ExampleNet".toList
    (by decide) (by decide) (by decide) (Or.inl (by decide))

/-- C2, as stated, fails: after two insertions for one IP (no lookup in between) the
table holds two entries for it; once both are older than `cache_duration`, a lookup
reports a miss and unlinks the entry it found, and the table still holds an entry for
that IP. -/
theorem find_in_cache_expired_keeps_older_entry :
    (add_to_cache false 0 [] "203.0.113.5".toList "A".toList).bind
        (fun c => add_to_cache false 0 c "203.0.113.5".toList "B".toList)
      = some [{ ip := "203.0.113.5".toList, info := "B".toList, timestamp := 0 },
              { ip := "203.0.113.5".toList, info := "A".toList, timestamp := 0 }] ∧
    HASH_FIND_STR [{ ip := "203.0.113.5".toList, info := "B".toList, timestamp := 0 },
                   { ip := "203.0.113.5".toList, info := "A".toList, timestamp := 0 }]
        "203.0.113.5".toList
      = some { ip := "203.0.113.5".toList, info := "B".toList, timestamp := 0 } ∧
    (150 : Int) - 0 > 100 ∧
    find_in_cache 150 100
        [{ ip := "203.0.113.5".toList, info := "B".toList, timestamp := 0 },
         { ip := "203.0.113.5".toList, info := "A".toList, timestamp := 0 }]
        "203.0.113.5".toList
      = (none, [{ ip := "203.0.113.5".toList, info := "A".toList, timestamp := 0 }]) ∧
    HASH_FIND_STR [{ ip := "203.0.113.5".toList, info := "A".toList, timestamp := 0 }]
        "203.0.113.5".toList
      = some { ip := "203.0.113.5".toList, info := "A".toList, timestamp := 0 } := by
  refine ⟨by decide, by decide, by decide, by decide, by decide⟩

/-- C2, amended.  If the entry that the lookup finds for the IP is older than
`cache_duration`, `find_in_cache` reports a miss and unlinks that entry: the table
afterwards is the old one without it and holds one entry fewer for that IP, hence
none when it was the only one.  And no lookup ever returns an entry older than
`cache_duration`. -/
theorem find_in_cache_expired (cache : Cache) (ip : CStr) (now cache_duration : Int)
    (e : CacheEntry) (h : HASH_FIND_STR cache ip = some e)
    (hexp : now - e.timestamp > cache_duration) :
    (find_in_cache now cache_duration cache ip).1 = none ∧
    (find_in_cache now cache_duration cache ip).2 = cache.erase e ∧
    entriesFor (find_in_cache now cache_duration cache ip).2 ip + 1 = entriesFor cache ip ∧
    (entriesFor cache ip = 1 →
      HASH_FIND_STR (find_in_cache now cache_duration cache ip).2 ip = none) ∧
    (∀ (c : Cache) (i : CStr) (n : Int) (r : CacheEntry),
      (find_in_cache n cache_duration c i).1 = some r →
        r.ip = i ∧ n - r.timestamp ≤ cache_duration) := by
  have hres : find_in_cache now cache_duration cache ip = (none, HASH_DEL cache e) := by
    simp [find_in_cache, h, hexp]
  have hcount := entriesFor_HASH_DEL h
  refine ⟨by rw [hres], by rw [hres]; rfl, by rw [hres]; exact hcount, ?_, ?_⟩
  · intro hone
    have hzero : entriesFor (HASH_DEL cache e) ip = 0 := by omega
    rw [hres]
    exact HASH_FIND_STR_of_entriesFor_zero hzero
  · intro c i n r hr
    unfold find_in_cache at hr
    cases hf : HASH_FIND_STR c i with
    | none => simp [hf] at hr
    | some x =>
      simp only [hf] at hr
      by_cases hx : n - x.timestamp > cache_duration
      · simp [hx] at hr
      · simp only [hx, if_false] at hr
        have hxr : x = r := by simpa using hr
        subst hxr
        exact ⟨HASH_FIND_STR_key hf, by omega⟩

/-- C2, amended, at the scenario of the specification: put at 0, ttl 100, get at 150. -/
theorem find_in_cache_expired_witness :
    (find_in_cache 150 100
        [{ ip := "203.0.113.5".toList, info := "A".toList, timestamp := 0 }]
        "203.0.113.5".toList).1 = none ∧
    (find_in_cache 150 100
        [{ ip := "203.0.113.5".toList, info := "A".toList, timestamp := 0 }]
        "203.0.113.5".toList).2
      = [] :=
  have h := find_in_cache_expired
    [{ ip := "203.0.113.5".toList, info := "A".toList, timestamp := 0 }]
    "203.0.113.5".toList 150 100
    { ip := "203.0.113.5".toList, info := "A".toList, timestamp := 0 }
    (by decide) (by decide)
  ⟨h.1, h.2.1.trans (by decide)⟩

/-- C3, as stated, fails: after `add_to_cache(ip, A)` and `add_to_cache(ip, B)` the
table holds two entries for the IP, the one with `A` still linked behind the one
with `B`.  And when eight entries for the IP are there before and the insertion of `B`
brings the bucket to `HASH_BKT_CAPACITY_THRESH` items, the expansion reverses the chain
and the lookup yields the oldest entry, not `B`. -/
theorem add_to_cache_twice_two_entries :
    (add_to_cache false 0 [] "203.0.113.5".toList "A".toList).bind
        (fun c => add_to_cache false 0 c "203.0.113.5".toList "B".toList)
      = some [{ ip := "203.0.113.5".toList, info := "B".toList, timestamp := 0 },
              { ip := "203.0.113.5".toList, info := "A".toList, timestamp := 0 }] ∧
    entriesFor [{ ip := "203.0.113.5".toList, info := "B".toList, timestamp := 0 },
                { ip := "203.0.113.5".toList, info := "A".toList, timestamp := 0 }]
        "203.0.113.5".toList = 2 ∧
    (find_in_cache 50 100
        [{ ip := "203.0.113.5".toList, info := "B".toList, timestamp := 0 },
         { ip := "203.0.113.5".toList, info := "A".toList, timestamp := 0 }]
        "203.0.113.5".toList).2
      = [{ ip := "203.0.113.5".toList, info := "B".toList, timestamp := 0 },
         { ip := "203.0.113.5".toList, info := "A".toList, timestamp := 0 }] ∧
    ((add_to_cache false 0
          (List.replicate 8 { ip := "203.0.113.5".toList, info := "old".toList,
                              timestamp := 0 })
          "203.0.113.5".toList "A".toList).bind
        (fun c => add_to_cache true 0 c "203.0.113.5".toList "B".toList)).map
      (fun c => (find_in_cache 50 100 c "203.0.113.5".toList).1)
      = some (some { ip := "203.0.113.5".toList, info := "old".toList, timestamp := 0 }) := by
  refine ⟨by decide, by decide, by decide, by decide⟩

/-- C3, amended.  Insertion is never an overwrite, and last-write-wins for lookups as
long as the table does not expand: for every IP shorter than 46 bytes and strings `A`,
`B` shorter than 256 bytes, `add_to_cache(ip, A)` at `t1` then `add_to_cache(ip, B)` at
`t2` both succeed and leave the entry holding `A` and the entry holding `B` in the
table, which then holds two more entries for that IP than before; and
`find_in_cache(ip)` at `t` with `t - t2 ≤ cache_duration` yields the entry holding `B`
provided the second insertion does not expand the table (it cannot while the table
holds fewer than ten entries). -/
theorem add_to_cache_last_write_wins (expand1 expand2 : Bool) (cache : Cache)
    (cache_duration t1 t2 t : Int)
    (ip A B : CStr) (hip : ip.length < 46) (hA : A.length < 256) (hB : B.length < 256)
    (ht : t - t2 ≤ cache_duration) :
    ∃ cache2,
      (add_to_cache expand1 t1 cache ip A).bind (fun c => add_to_cache expand2 t2 c ip B)
        = some cache2 ∧
      { ip := ip, info := A, timestamp := t1 } ∈ cache2 ∧
      { ip := ip, info := B, timestamp := t2 } ∈ cache2 ∧
      entriesFor cache2 ip = entriesFor cache ip + 2 ∧
      (expand2 = false ∨ cache.length < 8 →
        find_in_cache t cache_duration cache2 ip
          = (some { ip := ip, info := B, timestamp := t2 }, cache2)) := by
  have hperm1 := HASH_ADD_STR_perm expand1 cache { ip := ip, info := A, timestamp := t1 }
  have hperm2 := HASH_ADD_STR_perm expand2
    (HASH_ADD_STR expand1 cache { ip := ip, info := A, timestamp := t1 })
    { ip := ip, info := B, timestamp := t2 }
  refine ⟨HASH_ADD_STR expand2
      (HASH_ADD_STR expand1 cache { ip := ip, info := A, timestamp := t1 })
      { ip := ip, info := B, timestamp := t2 }, ?_, ?_, ?_, ?_, ?_⟩
  · simp [add_to_cache, hip, hA, hB]
  · exact hperm2.mem_iff.mpr
      (List.mem_cons_of_mem _ (hperm1.mem_iff.mpr (List.mem_cons_self _ _)))
  · exact hperm2.mem_iff.mpr (List.mem_cons_self _ _)
  · rw [entriesFor_HASH_ADD_STR]
    unfold entriesFor
    rw [List.countP_cons_of_pos _ _ (by simp)]
    have h1 := entriesFor_HASH_ADD_STR expand1 cache
      { ip := ip, info := A, timestamp := t1 } ip
    unfold entriesFor at h1
    rw [h1, List.countP_cons_of_pos _ _ (by simp)]
  · intro hsafe
    have hlen : (HASH_ADD_STR expand1 cache
        { ip := ip, info := A, timestamp := t1 }).length = cache.length + 1 := by
      rw [hperm1.length_eq]
      rfl
    have hsafe2 : expand2 = false
        ∨ (HASH_ADD_STR expand1 cache { ip := ip, info := A, timestamp := t1 }).length < 9 := by
      rcases hsafe with h | h
      · exact Or.inl h
      · exact Or.inr (by rw [hlen]; omega)
    have hnot : ¬ (t - t2 > cache_duration) := by omega
    rw [HASH_ADD_STR_of_no_expand _ hsafe2]
    simp [find_in_cache, HASH_FIND_STR, List.find?_cons, hnot]

/-- C3, amended, at a concrete input: two insertions at 0, lookup at 50, ttl 100. -/
theorem add_to_cache_last_write_wins_witness :
    ∃ cache2,
      (add_to_cache true 0 [] "203.0.113.5".toList "A".toList).bind
          (fun c => add_to_cache true 0 c "203.0.113.5".toList "B".toList) = some cache2 ∧
      { ip := "203.0.113.5".toList, info := "A".toList, timestamp := 0 } ∈ cache2 ∧
      { ip := "203.0.113.5".toList, info := "B".toList, timestamp := 0 } ∈ cache2 ∧
      entriesFor cache2 "203.0.113.5".toList = entriesFor [] "203.0.113.5".toList + 2 ∧
      (true = false ∨ ([] : Cache).length < 8 →
        find_in_cache 50 100 cache2 "203.0.113.5".toList
          = (some { ip := "203.0.113.5".toList, info := "B".toList, timestamp := 0 },
             cache2)) :=
  add_to_cache_last_write_wins true true [] 100 0 0 50 "203.0.113.5".toList "A".toList
    "B".toList (by decide) (by decide) (by decide) (by decide)

/-! ## Properties of the remote modules -/

/-- C4 at the failing input: operator alice asks WHOIS on bob, the cache misses, a
request is registered with `callback_data` holding bob, and when the complete answer
arrives the callback hands the line to `sendto_one` with bob (the target of the
WHOIS, address 2) as recipient, not alice (the requester, address 1). -/
theorem ipinfo_io_whois_callback_sends_to_target :
    ipinfo_io_whois_whois 0 sampleIo alice bob []
      = some ({ sampleIo with requests := [sampleRequest] }, []) ∧
    ipinfo_io_whois_callback sample_json_loads false 1
        { sampleIo with requests := [sampleRequest] } sampleRequest
        { errorbuf := none, memory := some "complete-body".toList }
      = some { sampleIo with
          requests := [sampleRequest],
          cache := [{ ip := "203.0.113.5".toList, info := sampleInfo, timestamp := 1 }],
          sent := [(bob.id,
            ":irc.example.org 320 bob bob :is connecting from ".toList ++ sampleInfo)] } ∧
    bob.id ≠ alice.id := by
  refine ⟨by decide, by decide, by decide⟩

/-- C5. When the parsed response lacks one of `city`, `region`, `country`, `org`, or
holds a non-string there, nothing is rendered: the asynchronous completion handler
returns without fault and leaves the whole state (cache, sent lines, log) as it was,
and the synchronous module, after its cache miss and transfer, returns without fault
with the reply list unchanged and no entry added to the cache (the table is the one
the lookup left). -/
theorem incomplete_response_not_found (json_loads : CStr → Option Json)
    (expand : Bool) (now now2 : Int)
    (root : Json) (body : CStr) (st : IpinfoIo) (request : OutgoingWebRequest)
    (response : OutgoingWebResponse)
    (curl_easy_perform : CStr → Option CStr) (sst : IpinfoSync) (requester acptr : Client)
    (ip : CStr) (list : NameValuePrioList)
    (hfields : json_is_string (json_object_get root "city".toList) = false
      ∨ json_is_string (json_object_get root "region".toList) = false
      ∨ json_is_string (json_object_get root "country".toList) = false
      ∨ json_is_string (json_object_get root "org".toList) = false)
    (hroot : json_loads body = some root)
    (herr : response.errorbuf = none) (hmem : response.memory = some body)
    (hoper : requester.IsOper = true) (huline : acptr.IsULine = false)
    (hserver : acptr.IsServer = false) (hip : acptr.ip = some ip)
    (hmiss : (find_in_cache now sst.cache_duration sst.cache ip).1 = none)
    (hbody : curl_easy_perform
      (snprintf 256 (API_URL ++ ip ++ "?token=".toList ++ sst.apikey)) = some body) :
    ipinfo_io_whois_callback json_loads expand now st request response = some st ∧
    ipinfo_whois_whois true curl_easy_perform json_loads expand now now2 sst requester acptr list
      = some ({ sst with
          cache := (find_in_cache now sst.cache_duration sst.cache ip).2,
          fetched := sst.fetched
            ++ [snprintf 256 (API_URL ++ ip ++ "?token=".toList ++ sst.apikey)] }, list) := by
  have hcond : (json_is_string (json_object_get root "city".toList)
      && json_is_string (json_object_get root "region".toList)
      && json_is_string (json_object_get root "country".toList)
      && json_is_string (json_object_get root "org".toList)) = false := by
    rcases hfields with h | h | h | h <;> rw [h] <;> simp
  constructor
  · simp only [ipinfo_io_whois_callback, herr, hmem, hroot, hcond, Option.isSome_none,
      Option.isNone_some, Option.getD_some]
    simp
  · rcases hfc : find_in_cache now sst.cache_duration sst.cache ip with ⟨r, c⟩
    rw [hfc] at hmiss
    simp only at hmiss
    subst hmiss
    simp only [ipinfo_whois_whois, hoper, huline, hserver, hip, hfc, hbody, hroot, hcond]
    simp

/-- C5 on the response that lacks the organization. -/
theorem incomplete_response_not_found_witness :
    ipinfo_io_whois_callback sample_json_loads false 1 sampleIo sampleRequest
        { errorbuf := none, memory := some "body-without-org".toList } = some sampleIo ∧
    ipinfo_whois_whois true sample_curl_perform_no_org sample_json_loads false 1 1 sampleSync
        alice bob []
      = some ({ sampleSync with
          cache := (find_in_cache 1 sampleSync.cache_duration sampleSync.cache
            "203.0.113.5".toList).2,
          fetched := sampleSync.fetched
            ++ [snprintf 256 (API_URL ++ "203.0.113.5".toList ++ "?token=".toList
              ++ sampleSync.apikey)] }, []) :=
  incomplete_response_not_found sample_json_loads false 1 1 sampleRootNoOrg
    "body-without-org".toList sampleIo sampleRequest
    { errorbuf := none, memory := some "body-without-org".toList }
    sample_curl_perform_no_org sampleSync alice bob "203.0.113.5".toList []
    (Or.inr (Or.inr (Or.inr (by decide)))) rfl rfl rfl rfl rfl rfl rfl
    (by decide) rfl

/-- A string that fits the buffer is stored whole by `snprintf`. -/
theorem snprintf_fits {size : Nat} {s : CStr} (h : s.length < size) : snprintf size s = s := by
  unfold snprintf
  exact List.take_of_length_le (by omega)

/-- C6. When `city`, `region`, `country` and `org` of the parsed response are all strings
and the text `T = "City: {city}, Region: {region}, Country: {country}, Org: {org}"` is
shorter than 256 bytes, the rendered result is exactly `T`: the asynchronous handler
caches `T` under the target's IP and sends a line ending in `T`, and the synchronous
module caches `T` and appends the line `"{name} :is connecting from " ++ T`. -/
theorem complete_response_rendered (json_loads : CStr → Option Json)
    (expand : Bool) (now now2 : Int)
    (root : Json) (body city region country org T : CStr)
    (st : IpinfoIo) (request : OutgoingWebRequest) (response : OutgoingWebResponse)
    (target : Client) (tip : CStr)
    (curl_easy_perform : CStr → Option CStr) (sst : IpinfoSync) (requester acptr : Client)
    (ip : CStr) (list : NameValuePrioList)
    (hcity : json_object_get root "city".toList = some (Json.string city))
    (hregion : json_object_get root "region".toList = some (Json.string region))
    (hcountry : json_object_get root "country".toList = some (Json.string country))
    (horg : json_object_get root "org".toList = some (Json.string org))
    (hT : T = "City: ".toList ++ city ++ ", Region: ".toList ++ region
      ++ ", Country: ".toList ++ country ++ ", Org: ".toList ++ org)
    (hlen : T.length < 256)
    (hroot : json_loads body = some root)
    (herr : response.errorbuf = none) (hmem : response.memory = some body)
    (hlive : deref st.clients request.callback_data = some target)
    (htip : target.ip = some tip) (htiplen : tip.length < 46)
    (hoper : requester.IsOper = true) (huline : acptr.IsULine = false)
    (hserver : acptr.IsServer = false) (hip : acptr.ip = some ip) (hiplen : ip.length < 46)
    (hmiss : (find_in_cache now sst.cache_duration sst.cache ip).1 = none)
    (hbody : curl_easy_perform
      (snprintf 256 (API_URL ++ ip ++ "?token=".toList ++ sst.apikey)) = some body) :
    ipinfo_io_whois_callback json_loads expand now st request response
      = some { st with
          cache := HASH_ADD_STR expand st.cache { ip := tip, info := T, timestamp := now },
          sent := st.sent ++ [(target.id,
            ":".toList ++ st.me_name ++ " 320 ".toList ++ target.name ++ " ".toList
              ++ target.name ++ " :is connecting from ".toList ++ T)] } ∧
    ipinfo_whois_whois true curl_easy_perform json_loads expand now now2 sst requester acptr
        list
      = some ({ sst with
          cache := HASH_ADD_STR expand (find_in_cache now sst.cache_duration sst.cache ip).2
            { ip := ip, info := T, timestamp := now2 },
          fetched := sst.fetched
            ++ [snprintf 256 (API_URL ++ ip ++ "?token=".toList ++ sst.apikey)] },
        list ++ [{ priority := 320, name := "city".toList, dest := acptr, numeric := 320,
                   text := acptr.name ++ " :is connecting from ".toList ++ T }]) := by
  have hrender : snprintf 256
      ("City: ".toList ++ json_string_value (some (Json.string city)) ++ ", Region: ".toList
        ++ json_string_value (some (Json.string region)) ++ ", Country: ".toList
        ++ json_string_value (some (Json.string country)) ++ ", Org: ".toList
        ++ json_string_value (some (Json.string org))) = T := by
    have hfit := snprintf_fits hlen
    rw [hT] at hfit
    rw [hT]
    exact hfit
  constructor
  · simp only [ipinfo_io_whois_callback, herr, hmem, hroot, hcity, hregion, hcountry, horg,
      hrender, hlive, htip, json_is_string, Option.isSome_none, Option.isNone_some,
      Option.getD_some, add_to_cache, htiplen, hlen]
    simp
  · rcases hfc : find_in_cache now sst.cache_duration sst.cache ip with ⟨r, c⟩
    rw [hfc] at hmiss
    simp only at hmiss
    subst hmiss
    simp only [ipinfo_whois_whois, hoper, huline, hserver, hip, hfc, hbody, hroot, hcity,
      hregion, hcountry, horg, hrender, json_is_string, add_to_cache, hiplen,
      hlen, add_nvplist_numeric_fmt]
    simp

/-- C6 on the complete sample response, for a WHOIS by alice on bob. -/
theorem complete_response_rendered_witness :
    ipinfo_io_whois_callback sample_json_loads false 1 sampleIo sampleRequest
        { errorbuf := none, memory := some "complete-body".toList }
      = some { sampleIo with
          cache := { ip := "203.0.113.5".toList, info := sampleInfo, timestamp := 1 }
            :: sampleIo.cache,
          sent := sampleIo.sent ++ [(bob.id,
            ":".toList ++ sampleIo.me_name ++ " 320 ".toList ++ bob.name ++ " ".toList
              ++ bob.name ++ " :is connecting from ".toList ++ sampleInfo)] } ∧
    ipinfo_whois_whois true sample_curl_perform sample_json_loads false 1 1 sampleSync alice
        bob []
      = some ({ sampleSync with
          cache := { ip := "203.0.113.5".toList, info := sampleInfo, timestamp := 1 }
            :: (find_in_cache 1 sampleSync.cache_duration sampleSync.cache
              "203.0.113.5".toList).2,
          fetched := sampleSync.fetched
            ++ [snprintf 256 (API_URL ++ "203.0.113.5".toList ++ "?token=".toList
              ++ sampleSync.apikey)] },
        [] ++ [{ priority := 320, name := "city".toList, dest := bob, numeric := 320,
                 text := bob.name ++ " :is connecting from ".toList ++ sampleInfo }]) :=
  complete_response_rendered sample_json_loads false 1 1 sampleRoot "complete-body".toList
    "Paris".toList "IDF".toList "FR".toList "ExampleNet".toList sampleInfo
    sampleIo sampleRequest { errorbuf := none, memory := some "complete-body".toList }
    bob "203.0.113.5".toList sample_curl_perform sampleSync alice bob "203.0.113.5".toList []
    rfl rfl rfl rfl (by decide) (by decide) rfl rfl rfl (by decide) rfl (by decide)
    rfl rfl rfl rfl (by decide) (by decide) rfl

/-! ## Properties of citywhois -/

/-- C7. For one operator and one target name, the texts delivered by `citywhois_whois`
for a target without IP, for a target whose lookup gives no entry or no city, and for a
target whose lookup gives a city differ pairwise: the no-IP text is
`"{name} :No IP found!!"`, the unknown text is one of the two
`"{name} :is connecting from an unknown ..."` lines, the found text is
`"{name} :is connecting from City: ..."`. -/
theorem citywhois_outcomes_distinct (mmdbU mmdbF : CStr → MMDB_lookup)
    (cfgN cfgU cfgF : CityWhoisConfig) (requester noip unknown found : Client)
    (cU cF : Char) (ipU ipF : CStr)
    (hoper : requester.IsOper = true)
    (huserN : noip.IsUser = true) (huserU : unknown.IsUser = true)
    (huserF : found.IsUser = true)
    (hnameU : unknown.name = noip.name) (hnameF : found.name = noip.name)
    (hnoip : noip.ip = none ∨ noip.ip = some [])
    (hipU : unknown.ip = some (cU :: ipU)) (hipF : found.ip = some (cF :: ipF))
    (hloadedU : cfgU.db_loaded = true) (hloadedF : cfgF.db_loaded = true)
    (hgaiU : (mmdbU (cU :: ipU)).gai_error = 0)
    (hmmdbU : (mmdbU (cU :: ipU)).mmdb_error = MMDB_SUCCESS)
    (hunknown : (mmdbU (cU :: ipU)).found_entry = false
      ∨ (mmdbU (cU :: ipU)).exit_code ≠ MMDB_SUCCESS
      ∨ (mmdbU (cU :: ipU)).has_data = false)
    (hgaiF : (mmdbF (cF :: ipF)).gai_error = 0)
    (hmmdbF : (mmdbF (cF :: ipF)).mmdb_error = MMDB_SUCCESS)
    (hfound : (mmdbF (cF :: ipF)).found_entry = true)
    (hexit : (mmdbF (cF :: ipF)).exit_code = MMDB_SUCCESS)
    (hdata : (mmdbF (cF :: ipF)).has_data = true) :
    (citywhois_whois mmdbU cfgN requester noip []).2.map NameValuePrio.text
      = [noip.name ++ " :No IP found!!".toList] ∧
    ((citywhois_whois mmdbU cfgU requester unknown []).2.map NameValuePrio.text
        = [noip.name ++ " :is connecting from an unknown location".toList]
      ∨ (citywhois_whois mmdbU cfgU requester unknown []).2.map NameValuePrio.text
        = [noip.name ++ " :is connecting from an unknown city".toList]) ∧
    (citywhois_whois mmdbF cfgF requester found []).2.map NameValuePrio.text
      = [noip.name ++ " :is connecting from City: ".toList
          ++ snprintf 256 (fmt_precision_s (mmdbF (cF :: ipF)).utf8_string)] ∧
    (citywhois_whois mmdbU cfgN requester noip []).2.map NameValuePrio.text
      ≠ (citywhois_whois mmdbU cfgU requester unknown []).2.map NameValuePrio.text ∧
    (citywhois_whois mmdbU cfgN requester noip []).2.map NameValuePrio.text
      ≠ (citywhois_whois mmdbF cfgF requester found []).2.map NameValuePrio.text ∧
    (citywhois_whois mmdbF cfgF requester found []).2.map NameValuePrio.text
      ≠ (citywhois_whois mmdbU cfgU requester unknown []).2.map NameValuePrio.text := by
  have hN : (citywhois_whois mmdbU cfgN requester noip []).2.map NameValuePrio.text
      = [noip.name ++ " :No IP found!!".toList] := by
    rcases hnoip with h | h <;>
      simp [citywhois_whois, hoper, huserN, h, add_nvplist_numeric_fmt]
  have hF : (citywhois_whois mmdbF cfgF requester found []).2.map NameValuePrio.text
      = [noip.name ++ " :is connecting from City: ".toList
          ++ snprintf 256 (fmt_precision_s (mmdbF (cF :: ipF)).utf8_string)] := by
    simp [citywhois_whois, hoper, huserF, hipF, hloadedF, hgaiF, hmmdbF, hfound, hexit,
      hdata, add_nvplist_numeric_fmt, hnameF]
  have hU : (citywhois_whois mmdbU cfgU requester unknown []).2.map NameValuePrio.text
        = [noip.name ++ " :is connecting from an unknown location".toList]
      ∨ (citywhois_whois mmdbU cfgU requester unknown []).2.map NameValuePrio.text
        = [noip.name ++ " :is connecting from an unknown city".toList] := by
    cases hfe : (mmdbU (cU :: ipU)).found_entry with
    | false =>
      left
      simp [citywhois_whois, hoper, huserU, hipU, hloadedU, hgaiU, hmmdbU, hfe,
        add_nvplist_numeric_fmt, hnameU]
    | true =>
      right
      have hnot : ((mmdbU (cU :: ipU)).exit_code == MMDB_SUCCESS
          && (mmdbU (cU :: ipU)).has_data) = false := by
        rcases hunknown with h | h | h
        · rw [hfe] at h
          exact absurd h (by decide)
        · have : ((mmdbU (cU :: ipU)).exit_code == MMDB_SUCCESS) = false := by
            simpa using h
          rw [this]
          rfl
        · rw [h]
          simp
      simp [citywhois_whois, hoper, huserU, hipU, hloadedU, hgaiU, hmmdbU, hfe, hnot,
        add_nvplist_numeric_fmt, hnameU]
  refine ⟨hN, hU, hF, ?_, ?_, ?_⟩
  · rw [hN]
    rcases hU with h | h <;> rw [h] <;> simp
  · rw [hN, hF]
    simp
  · rw [hF]
    rcases hU with h | h <;> rw [h] <;> simp

/-- C7 on three targets named bob: one without IP, one absent from the sample
database, one whose address has a city. -/
theorem citywhois_outcomes_distinct_witness :
    (citywhois_whois sample_mmdb sampleCity alice { bob with ip := none } []).2.map
        NameValuePrio.text
      ≠ (citywhois_whois sample_mmdb sampleCity alice
          { bob with ip := some "192.0.2.77".toList } []).2.map NameValuePrio.text ∧
    (citywhois_whois sample_mmdb sampleCity alice { bob with ip := none } []).2.map
        NameValuePrio.text
      ≠ (citywhois_whois sample_mmdb sampleCity alice bob []).2.map NameValuePrio.text ∧
    (citywhois_whois sample_mmdb sampleCity alice bob []).2.map NameValuePrio.text
      ≠ (citywhois_whois sample_mmdb sampleCity alice
          { bob with ip := some "192.0.2.77".toList } []).2.map NameValuePrio.text :=
  (citywhois_outcomes_distinct sample_mmdb sample_mmdb sampleCity sampleCity sampleCity alice
    { bob with ip := none } { bob with ip := some "192.0.2.77".toList } bob
    '1' '2' "92.0.2.77".toList "03.0.113.5".toList
    rfl rfl rfl rfl rfl rfl (Or.inl rfl) rfl rfl rfl rfl (by decide) (by decide)
    (Or.inl (by decide)) (by decide) (by decide) (by decide) (by decide) (by decide)).2.2.2

set_option maxRecDepth 20000 in
/-- C8, as stated, fails for a long city name: for a dataset entry whose English city
name is 256 bytes (255 times `a`, then `z`), the delivered line carries only the first
255 bytes, so it is not `"{name} :is connecting from City: {city}"` and the city string
does not occur in it.  (A city value holding a NUL byte is cut there as well.) -/
theorem citywhois_long_city_truncated :
    (sample_mmdb "192.0.2.1".toList).found_entry = true ∧
    (sample_mmdb "192.0.2.1".toList).has_data = true ∧
    (sample_mmdb "192.0.2.1".toList).utf8_string = List.replicate 255 'a' ++ ['z'] ∧
    (citywhois_whois sample_mmdb sampleCity alice { bob with ip := some "192.0.2.1".toList }
        []).2.map NameValuePrio.text
      = ["bob :is connecting from City: ".toList ++ List.replicate 255 'a'] ∧
    "bob :is connecting from City: ".toList ++ List.replicate 255 'a'
      ≠ "bob :is connecting from City: ".toList ++ (List.replicate 255 'a' ++ ['z']) ∧
    ¬ (List.replicate 255 'a' ++ ['z'])
        <:+: ("bob :is connecting from City: ".toList ++ List.replicate 255 'a') ∧
    (citywhois_whois sample_mmdb sampleCity alice { bob with ip := some "192.0.2.2".toList }
        []).2.map NameValuePrio.text
      = ["bob :is connecting from City: Par".toList] := by
  refine ⟨by decide, by decide, by decide, by decide, ?_, ?_, by decide⟩
  · intro heq
    have hlen := congrArg List.length heq
    simp at hlen
  intro hinfix
  have hz : 'z' ∈ "bob :is connecting from City: ".toList ++ List.replicate 255 'a' :=
    hinfix.subset (List.mem_append_right _ (List.mem_singleton.mpr rfl))
  rw [List.mem_append] at hz
  rcases hz with hz | hz
  · exact absurd hz (by decide)
  · exact absurd (List.eq_of_mem_replicate hz) (by decide)

/-- C8, amended.  For an operator asking about a user with an IP, with the database
loaded and the lookup free of errors: an entry without English city name (the value
lookup fails or has no data) delivers `"{name} :is connecting from an unknown city"`;
an entry with a city delivers `"{name} :is connecting from City: "` followed by the
city bytes up to the first NUL, cut to 255 bytes, which is the city string verbatim
whenever it has no NUL byte and is shorter than 256 bytes. -/
theorem citywhois_found_entry (mmdb : CStr → MMDB_lookup) (cfg : CityWhoisConfig)
    (requester acptr : Client) (c : Char) (cs : CStr) (list : NameValuePrioList)
    (hoper : requester.IsOper = true) (huser : acptr.IsUser = true)
    (hip : acptr.ip = some (c :: cs)) (hloaded : cfg.db_loaded = true)
    (hgai : (mmdb (c :: cs)).gai_error = 0)
    (hmmdb : (mmdb (c :: cs)).mmdb_error = MMDB_SUCCESS)
    (hfound : (mmdb (c :: cs)).found_entry = true) :
    (((mmdb (c :: cs)).exit_code ≠ MMDB_SUCCESS ∨ (mmdb (c :: cs)).has_data = false) →
      citywhois_whois mmdb cfg requester acptr list
        = ({ cfg with lookups := cfg.lookups ++ [c :: cs] },
           list ++ [{ priority := 320, name := "city".toList, dest := acptr, numeric := 320,
                      text := acptr.name
                        ++ " :is connecting from an unknown city".toList }])) ∧
    (((mmdb (c :: cs)).exit_code = MMDB_SUCCESS ∧ (mmdb (c :: cs)).has_data = true) →
      citywhois_whois mmdb cfg requester acptr list
        = ({ cfg with lookups := cfg.lookups ++ [c :: cs] },
           list ++ [{ priority := 320, name := "city".toList, dest := acptr, numeric := 320,
                      text := acptr.name ++ " :is connecting from City: ".toList
                        ++ ((mmdb (c :: cs)).utf8_string.takeWhile
                              (fun ch => ch != Char.ofNat 0)).take 255 }])) ∧
    (((mmdb (c :: cs)).exit_code = MMDB_SUCCESS ∧ (mmdb (c :: cs)).has_data = true
        ∧ (∀ ch ∈ (mmdb (c :: cs)).utf8_string, ch ≠ Char.ofNat 0)
        ∧ (mmdb (c :: cs)).utf8_string.length < 256) →
      citywhois_whois mmdb cfg requester acptr list
        = ({ cfg with lookups := cfg.lookups ++ [c :: cs] },
           list ++ [{ priority := 320, name := "city".toList, dest := acptr, numeric := 320,
                      text := acptr.name ++ " :is connecting from City: ".toList
                        ++ (mmdb (c :: cs)).utf8_string }])) := by
  have hcity : ((mmdb (c :: cs)).exit_code = MMDB_SUCCESS ∧ (mmdb (c :: cs)).has_data = true) →
      citywhois_whois mmdb cfg requester acptr list
        = ({ cfg with lookups := cfg.lookups ++ [c :: cs] },
           list ++ [{ priority := 320, name := "city".toList, dest := acptr, numeric := 320,
                      text := acptr.name ++ " :is connecting from City: ".toList
                        ++ ((mmdb (c :: cs)).utf8_string.takeWhile
                              (fun ch => ch != Char.ofNat 0)).take 255 }]) := by
    rintro ⟨hexit, hdata⟩
    simp [citywhois_whois, hoper, huser, hip, hloaded, hgai, hmmdb, hfound, hexit, hdata,
      add_nvplist_numeric_fmt, snprintf, fmt_precision_s]
  refine ⟨?_, hcity, ?_⟩
  · intro hno
    have hnot : ((mmdb (c :: cs)).exit_code == MMDB_SUCCESS
        && (mmdb (c :: cs)).has_data) = false := by
      rcases hno with h | h
      · have : ((mmdb (c :: cs)).exit_code == MMDB_SUCCESS) = false := by simpa using h
        rw [this]
        rfl
      · rw [h]
        simp
    simp [citywhois_whois, hoper, huser, hip, hloaded, hgai, hmmdb, hfound, hnot,
      add_nvplist_numeric_fmt]
  · rintro ⟨hexit, hdata, hnul, hlen⟩
    rw [hcity ⟨hexit, hdata⟩]
    have htw : (mmdb (c :: cs)).utf8_string.takeWhile (fun ch => ch != Char.ofNat 0)
        = (mmdb (c :: cs)).utf8_string := by
      rw [List.takeWhile_eq_self_iff]
      intro ch hch
      simpa using hnul ch hch
    rw [htw, List.take_of_length_le (by omega)]

/-- C8, amended, on the sample database: bob's address has the city `Paris`. -/
theorem citywhois_found_entry_witness :
    citywhois_whois sample_mmdb sampleCity alice bob []
      = ({ sampleCity with lookups := sampleCity.lookups ++ ['2' :: "03.0.113.5".toList] },
         [] ++ [{ priority := 320, name := "city".toList, dest := bob, numeric := 320,
                  text := bob.name ++ " :is connecting from City: ".toList
                    ++ (sample_mmdb ('2' :: "03.0.113.5".toList)).utf8_string }]) :=
  (citywhois_found_entry sample_mmdb sampleCity alice bob '2' "03.0.113.5".toList []
    rfl rfl rfl rfl (by decide) (by decide) (by decide)).2.2
    ⟨by decide, by decide, by decide, by decide⟩

/-! ## Properties of the entry points -/

/-- C9. When the requester is not an IRC operator, `citywhois_whois`,
`ipinfo_io_whois_whois` and `ipinfo_whois_whois` return at once without fault: the
module state (cache, lookup trace, registered requests, fetched URLs, sent lines, log)
and the reply list are exactly what they were. -/
theorem whois_non_oper_noop (requester acptr : Client) (list : NameValuePrioList)
    (mmdb : CStr → MMDB_lookup) (cfg : CityWhoisConfig)
    (now now2 : Int) (st : IpinfoIo)
    (curl_easy_init : Bool) (curl_easy_perform : CStr → Option CStr)
    (json_loads : CStr → Option Json)
    (expand : Bool) (sst : IpinfoSync)
    (hoper : requester.IsOper = false) :
    citywhois_whois mmdb cfg requester acptr list = (cfg, list) ∧
    ipinfo_io_whois_whois now st requester acptr list = some (st, list) ∧
    ipinfo_whois_whois curl_easy_init curl_easy_perform json_loads expand now now2 sst
        requester acptr list = some (sst, list) := by
  refine ⟨?_, ?_, ?_⟩
  · simp [citywhois_whois, hoper]
  · simp [ipinfo_io_whois_whois, hoper]
  · simp [ipinfo_whois_whois, hoper]

/-- C9 for bob (not an operator) asking about alice, with an expired cache entry for
alice's address left in place. -/
theorem whois_non_oper_noop_witness :
    citywhois_whois sample_mmdb sampleCity bob alice [] = (sampleCity, []) ∧
    ipinfo_io_whois_whois 500
        { sampleIo with cache := [{ ip := "198.51.100.7".toList, info := sampleInfo,
                                    timestamp := 0 }] } bob alice []
      = some ({ sampleIo with cache := [{ ip := "198.51.100.7".toList, info := sampleInfo,
                                          timestamp := 0 }] }, []) ∧
    ipinfo_whois_whois true sample_curl_perform sample_json_loads false 500 501
        { sampleSync with cache := [{ ip := "198.51.100.7".toList, info := sampleInfo,
                                      timestamp := 0 }] } bob alice []
      = some ({ sampleSync with cache := [{ ip := "198.51.100.7".toList, info := sampleInfo,
                                            timestamp := 0 }] }, []) :=
  whois_non_oper_noop bob alice [] sample_mmdb sampleCity 500 501
    { sampleIo with cache := [{ ip := "198.51.100.7".toList, info := sampleInfo,
                                timestamp := 0 }] }
    true sample_curl_perform sample_json_loads false
    { sampleSync with cache := [{ ip := "198.51.100.7".toList, info := sampleInfo,
                                  timestamp := 0 }] } rfl

/-- C10, as stated, fails: for an operator asking about a user whose IP is `NULL`, and
likewise for one whose IP is the empty string, `citywhois_whois` appends a line to the
reply.  (The remote module has no test of the IP: with the empty string it registers a
request, with `NULL` it takes `strlen(NULL)`.) -/
theorem citywhois_no_ip_appends_line :
    carol.ip = none ∧
    (citywhois_whois sample_mmdb sampleCity alice carol []).2
      = [{ priority := 320, name := "city".toList, dest := carol, numeric := 320,
           text := "carol :No IP found!!".toList }] ∧
    (citywhois_whois sample_mmdb sampleCity alice carol []).2 ≠ [] ∧
    (citywhois_whois sample_mmdb sampleCity alice { carol with ip := some [] } []).2
      = [{ priority := 320, name := "city".toList, dest := { carol with ip := some [] },
           numeric := 320, text := "carol :No IP found!!".toList }] ∧
    ipinfo_io_whois_whois 0 sampleIo alice { carol with ip := some [] } []
      = some ({ sampleIo with requests :=
          [{ url := "https://ipinfo.io/?token=KEY".toList,
             http_method := HttpMethod.HTTP_METHOD_GET,
             apicallback := "ipinfo_io_whois_callback".toList, callback_data := 3 }] }, []) ∧
    ipinfo_io_whois_whois 0 sampleIo alice carol [] = none := by
  refine ⟨by decide, by decide, by decide, by decide, by decide, by decide⟩

/-- C10, amended.  If the target has no known IP (`ip` is `NULL` or empty), then in the
local module, for an operator asking about a user, `citywhois_whois` performs no lookup
and logs nothing (the configuration and its traces are unchanged), completes without
fault, and appends exactly one line, `"{name} :No IP found!!"`, to the reply. -/
theorem citywhois_no_ip (mmdb : CStr → MMDB_lookup) (cfg : CityWhoisConfig)
    (requester acptr : Client) (list : NameValuePrioList)
    (hoper : requester.IsOper = true) (huser : acptr.IsUser = true)
    (hnoip : acptr.ip = none ∨ acptr.ip = some []) :
    citywhois_whois mmdb cfg requester acptr list
      = (cfg, list ++ [{ priority := 320, name := "city".toList, dest := acptr,
                         numeric := 320,
                         text := acptr.name ++ " :No IP found!!".toList }]) := by
  rcases hnoip with h | h <;>
    simp [citywhois_whois, hoper, huser, h, add_nvplist_numeric_fmt]

/-- C10, amended, for alice asking about carol, whose IP is `NULL`. -/
theorem citywhois_no_ip_witness :
    citywhois_whois sample_mmdb sampleCity alice carol []
      = (sampleCity, [] ++ [{ priority := 320, name := "city".toList, dest := carol,
                              numeric := 320,
                              text := carol.name ++ " :No IP found!!".toList }]) :=
  citywhois_no_ip sample_mmdb sampleCity alice carol [] rfl rfl (Or.inl rfl)

/-! ## Properties of the lookup path and of the completion handler -/

/-- C11, as stated, fails when the entry the lookup meets first is expired while a
fresh one lies behind it: bob's address has an entry put at 100, not older than the
ttl of 100 at time 150, behind an entry put at 0; for alice asking about bob the
lookup unlinks the expired entry and reports a miss, so the hook appends no line and
registers a request. -/
theorem cache_hit_shadowed_by_expired :
    (150 : Int) - 100 ≤ 100 ∧
    ipinfo_io_whois_whois 150
        { sampleIo with cache :=
            [{ ip := "203.0.113.5".toList, info := "earlier".toList, timestamp := 0 },
             { ip := "203.0.113.5".toList, info := sampleInfo, timestamp := 100 }] }
        alice bob []
      = some ({ sampleIo with
          cache := [{ ip := "203.0.113.5".toList, info := sampleInfo, timestamp := 100 }],
          requests := [sampleRequest] }, []) := by
  refine ⟨by decide, by decide⟩

/-- C11, amended.  For an operator asking about a target (not U-lined, not a server)
for whose IP the entry that the lookup finds is not older than `cache_duration`, the
hook appends exactly one numeric 320 line, `"{name} :is connecting from {info}"` with
the cached `info`, and leaves the module state as it was: no request is registered
(asynchronous module), no URL is fetched (synchronous module). -/
theorem cache_hit_delivers_cached (now now2 : Int) (st : IpinfoIo) (sst : IpinfoSync)
    (curl_easy_init : Bool) (curl_easy_perform : CStr → Option CStr)
    (json_loads : CStr → Option Json)
    (expand : Bool) (requester acptr : Client) (ip : CStr)
    (e es : CacheEntry) (list : NameValuePrioList)
    (hoper : requester.IsOper = true) (huline : acptr.IsULine = false)
    (hserver : acptr.IsServer = false) (hip : acptr.ip = some ip)
    (hfind : HASH_FIND_STR st.cache ip = some e)
    (hfresh : now - e.timestamp ≤ st.cache_duration)
    (hfinds : HASH_FIND_STR sst.cache ip = some es)
    (hfreshs : now - es.timestamp ≤ sst.cache_duration) :
    ipinfo_io_whois_whois now st requester acptr list
      = some (st, list ++ [{ priority := 320, name := "city".toList, dest := acptr,
                             numeric := 320,
                             text := acptr.name ++ " :is connecting from ".toList
                               ++ e.info }]) ∧
    ipinfo_whois_whois curl_easy_init curl_easy_perform json_loads expand now now2 sst
        requester acptr list
      = some (sst, list ++ [{ priority := 320, name := "city".toList, dest := acptr,
                              numeric := 320,
                              text := acptr.name ++ " :is connecting from ".toList
                                ++ es.info }]) := by
  have hnot : ¬ (now - e.timestamp > st.cache_duration) := by omega
  have hnots : ¬ (now - es.timestamp > sst.cache_duration) := by omega
  constructor
  · simp only [ipinfo_io_whois_whois, hoper, huline, hserver, hip, find_in_cache, hfind,
      hnot, add_nvplist_numeric_fmt]
    simp
  · simp only [ipinfo_whois_whois, hoper, huline, hserver, hip, find_in_cache, hfinds,
      hnots, add_nvplist_numeric_fmt]
    simp

/-- C11, amended, for alice asking about bob at time 50, bob's address cached at time 0, ttl 100. -/
theorem cache_hit_delivers_cached_witness :
    ipinfo_io_whois_whois 50
        { sampleIo with cache := [{ ip := "203.0.113.5".toList, info := sampleInfo,
                                    timestamp := 0 }] } alice bob []
      = some ({ sampleIo with cache := [{ ip := "203.0.113.5".toList, info := sampleInfo,
                                          timestamp := 0 }] },
          [] ++ [{ priority := 320, name := "city".toList, dest := bob, numeric := 320,
                   text := bob.name ++ " :is connecting from ".toList
                     ++ (CacheEntry.mk "203.0.113.5".toList sampleInfo 0).info }]) :=
  (cache_hit_delivers_cached 50 51
    { sampleIo with cache := [{ ip := "203.0.113.5".toList, info := sampleInfo,
                                timestamp := 0 }] }
    { sampleSync with cache := [{ ip := "203.0.113.5".toList, info := sampleInfo,
                                  timestamp := 0 }] }
    true sample_curl_perform sample_json_loads false alice bob "203.0.113.5".toList
    { ip := "203.0.113.5".toList, info := sampleInfo, timestamp := 0 }
    { ip := "203.0.113.5".toList, info := sampleInfo, timestamp := 0 } []
    rfl rfl rfl rfl (by decide) (by decide) (by decide) (by decide)).1

/-- C12. For a completion that carries a transport error or no body, or whose body
is not parseable: whenever the handler returns, the sent lines, the cache and the
registered requests are what they were; with an error or no body it returns (having
logged one event) as long as the client in `callback_data` is still there to be read;
with a body that does not parse it returns the state unchanged. -/
theorem failed_completion_silent (json_loads : CStr → Option Json)
    (expand : Bool) (now : Int)
    (st : IpinfoIo) (request : OutgoingWebRequest) (response : OutgoingWebResponse)
    (hbad : response.errorbuf.isSome = true ∨ response.memory = none
      ∨ json_loads (response.memory.getD []) = none) :
    (∀ st1, ipinfo_io_whois_callback json_loads expand now st request response = some st1 →
      st1.sent = st.sent ∧ st1.cache = st.cache ∧ st1.requests = st.requests) ∧
    (∀ acptr, deref st.clients request.callback_data = some acptr →
      (response.errorbuf.isSome = true ∨ response.memory = none) →
      ipinfo_io_whois_callback json_loads expand now st request response
        = some { st with logs := st.logs ++
            [{ event := "IPINFO_IO_WHOIS_BAD_RESPONSE".toList, ip := acptr.ip,
               error := response.errorbuf.getD "No data (body) returned".toList }] }) ∧
    (response.errorbuf = none → response.memory ≠ none →
      ipinfo_io_whois_callback json_loads expand now st request response = some st) := by
  have hlog : ∀ acptr, deref st.clients request.callback_data = some acptr →
      (response.errorbuf.isSome = true ∨ response.memory = none) →
      ipinfo_io_whois_callback json_loads expand now st request response
        = some { st with logs := st.logs ++
            [{ event := "IPINFO_IO_WHOIS_BAD_RESPONSE".toList, ip := acptr.ip,
               error := response.errorbuf.getD "No data (body) returned".toList }] } := by
    intro acptr hlive herr
    have hcond : (response.errorbuf.isSome || response.memory.isNone) = true := by
      rcases herr with h | h
      · rw [h]
        rfl
      · rw [h]
        simp
    simp only [ipinfo_io_whois_callback, hcond, hlive, if_true]
  have hparse : response.errorbuf = none → response.memory ≠ none →
      ipinfo_io_whois_callback json_loads expand now st request response = some st := by
    intro herr hmem
    have hloads : json_loads (response.memory.getD []) = none := by
      rcases hbad with h | h | h
      · rw [herr] at h
        exact absurd h (by decide)
      · exact absurd h hmem
      · exact h
    have hcond : (response.errorbuf.isSome || response.memory.isNone) = false := by
      cases hm : response.memory with
      | none => exact absurd hm hmem
      | some b => rw [herr]; rfl
    simp only [ipinfo_io_whois_callback, hcond, hloads]
    simp
  refine ⟨?_, hlog, hparse⟩
  intro st1 hst1
  by_cases herr : response.errorbuf.isSome = true ∨ response.memory = none
  · cases hlive : deref st.clients request.callback_data with
    | none =>
      have hcond : (response.errorbuf.isSome || response.memory.isNone) = true := by
        rcases herr with h | h
        · rw [h]
          rfl
        · rw [h]
          simp
      simp [ipinfo_io_whois_callback, hcond, hlive] at hst1
    | some acptr =>
      rw [hlog acptr hlive herr] at hst1
      have hEq := Option.some.inj hst1
      subst hEq
      exact ⟨rfl, rfl, rfl⟩
  · have herr1 : response.errorbuf = none := by
      cases h : response.errorbuf with
      | none => rfl
      | some x => exact absurd (Or.inl (by rw [h]; rfl)) herr
    have hmem1 : response.memory ≠ none := fun h => herr (Or.inr h)
    rw [hparse herr1 hmem1] at hst1
    have hEq := Option.some.inj hst1
    subst hEq
    exact ⟨rfl, rfl, rfl⟩

/-- C12 on a timed-out transfer for the request about bob. -/
theorem failed_completion_silent_witness :
    ipinfo_io_whois_callback sample_json_loads false 1 sampleIo sampleRequest
        { errorbuf := some "Timeout".toList, memory := none }
      = some { sampleIo with logs := sampleIo.logs ++
          [{ event := "IPINFO_IO_WHOIS_BAD_RESPONSE".toList, ip := bob.ip,
             error := (some "Timeout".toList).getD "No data (body) returned".toList }] } :=
  (failed_completion_silent sample_json_loads false 1 sampleIo sampleRequest
    { errorbuf := some "Timeout".toList, memory := none } (Or.inl rfl)).2.1 bob rfl
    (Or.inl rfl)

/-- C13, as stated, fails: for the response that lacks the organization, and for a body
that does not parse, the completion handler returns with nothing sent (no
"unknown location" line, no line at all), and the synchronous module returns an empty
reply. -/
theorem incomplete_response_no_line :
    (ipinfo_io_whois_callback sample_json_loads false 1 sampleIo sampleRequest
        { errorbuf := none, memory := some "body-without-org".toList }).map
      (fun st => st.sent) = some [] ∧
    (ipinfo_io_whois_callback sample_json_loads false 1 sampleIo sampleRequest
        { errorbuf := none, memory := some "not json".toList }).map
      (fun st => st.sent) = some [] ∧
    (ipinfo_whois_whois true sample_curl_perform_no_org sample_json_loads false 1 1 sampleSync
        alice bob []).map (fun r => r.2) = some [] := by
  refine ⟨by decide, by decide, by decide⟩

/-- C13, amended.  When the remote service did respond (no transport error, a body)
but the body does not parse or lacks one of the four string fields, nothing is
rendered and nothing is delivered: the completion handler returns the state unchanged,
so no line is sent to anyone. -/
theorem incomplete_response_silent (json_loads : CStr → Option Json)
    (expand : Bool) (now : Int)
    (st : IpinfoIo) (request : OutgoingWebRequest) (response : OutgoingWebResponse)
    (body : CStr)
    (herr : response.errorbuf = none) (hmem : response.memory = some body)
    (hpayload : json_loads body = none
      ∨ ∃ root, json_loads body = some root
        ∧ (json_is_string (json_object_get root "city".toList)
            && json_is_string (json_object_get root "region".toList)
            && json_is_string (json_object_get root "country".toList)
            && json_is_string (json_object_get root "org".toList)) = false) :
    ipinfo_io_whois_callback json_loads expand now st request response = some st ∧
    (ipinfo_io_whois_callback json_loads expand now st request response).map (fun s => s.sent)
      = some st.sent := by
  have hres : ipinfo_io_whois_callback json_loads expand now st request response = some st := by
    rcases hpayload with hnone | ⟨root, hroot, hcond⟩
    · simp only [ipinfo_io_whois_callback, herr, hmem, hnone, Option.isSome_none,
        Option.isNone_some, Option.getD_some]
      simp
    · simp only [ipinfo_io_whois_callback, herr, hmem, hroot, hcond, Option.isSome_none,
        Option.isNone_some, Option.getD_some]
      simp
  exact ⟨hres, by rw [hres]; rfl⟩

/-- C13, amended, on a body that does not parse. -/
theorem incomplete_response_silent_witness :
    ipinfo_io_whois_callback sample_json_loads false 1 sampleIo sampleRequest
        { errorbuf := none, memory := some "not json".toList } = some sampleIo :=
  (incomplete_response_silent sample_json_loads false 1 sampleIo sampleRequest
    { errorbuf := none, memory := some "not json".toList } "not json".toList
    rfl rfl (Or.inl rfl)).1

/-- C14, as stated, fails: with the database not loaded, an operator asking about a
user that has an IP gets no line from `citywhois_whois`; the reply stays empty and one
error is logged. -/
theorem citywhois_db_not_loaded_no_line :
    sampleCityUnloaded.db_loaded = false ∧
    bob.ip = some "203.0.113.5".toList ∧
    citywhois_whois sample_mmdb sampleCityUnloaded alice bob []
      = ({ sampleCityUnloaded with
            logs := ["CityWhois: MaxMind DB not loaded.".toList] }, []) := by
  refine ⟨by decide, by decide, by decide⟩

/-- C14, amended.  When the local dataset is not loaded while the target has an IP,
the enrichment is skipped: for an operator asking about a user, `citywhois_whois`
performs no lookup, logs one error and leaves the reply list unchanged (no line is
delivered). -/
theorem citywhois_db_not_loaded (mmdb : CStr → MMDB_lookup) (cfg : CityWhoisConfig)
    (requester acptr : Client) (c : Char) (cs : CStr) (list : NameValuePrioList)
    (hoper : requester.IsOper = true) (huser : acptr.IsUser = true)
    (hip : acptr.ip = some (c :: cs)) (hloaded : cfg.db_loaded = false) :
    citywhois_whois mmdb cfg requester acptr list
      = ({ cfg with logs := cfg.logs ++ ["CityWhois: MaxMind DB not loaded.".toList] },
         list) := by
  simp [citywhois_whois, hoper, huser, hip, hloaded]

/-- C14, amended, for alice asking about bob with the database not opened. -/
theorem citywhois_db_not_loaded_witness :
    citywhois_whois sample_mmdb sampleCityUnloaded alice bob []
      = ({ sampleCityUnloaded with
            logs := sampleCityUnloaded.logs ++ ["CityWhois: MaxMind DB not loaded.".toList] },
         []) :=
  citywhois_db_not_loaded sample_mmdb sampleCityUnloaded alice bob '2' "03.0.113.5".toList []
    rfl rfl rfl rfl

/-- C15 at the failing input: alice asks WHOIS on bob, the request is registered with
bob's address in `callback_data`, bob disconnects (his `Client` is freed), then the
completion fires.  With a complete response the handler reads `acptr->ip` and
`acptr->name` through the freed object and hands it to `sendto_one`; with a transport
error it reads `acptr->ip` for the log.  Both are faults; nothing in the handler tests
whether the client is still there.  While bob is connected the line is sent although
alice, who asked, has gone. -/
theorem ipinfo_io_whois_callback_stale_client :
    ipinfo_io_whois_whois 0 sampleIo alice bob []
      = some ({ sampleIo with requests := [sampleRequest] }, []) ∧
    sampleRequest.callback_data = bob.id ∧
    deref [alice] sampleRequest.callback_data = none ∧
    ipinfo_io_whois_callback sample_json_loads false 1
        { sampleIo with requests := [sampleRequest], clients := [alice] } sampleRequest
        { errorbuf := none, memory := some "complete-body".toList } = none ∧
    ipinfo_io_whois_callback sample_json_loads false 1
        { sampleIo with requests := [sampleRequest], clients := [alice] } sampleRequest
        { errorbuf := some "Timeout".toList, memory := none } = none ∧
    (ipinfo_io_whois_callback sample_json_loads false 1
        { sampleIo with requests := [sampleRequest], clients := [bob] } sampleRequest
        { errorbuf := none, memory := some "complete-body".toList }).map
      (fun st => st.sent)
      = some [(bob.id, ":irc.example.org 320 bob bob :is connecting from ".toList
          ++ sampleInfo)] := by
  refine ⟨by decide, by decide, by decide, by decide, by decide, by decide⟩

/-- What `snprintf` stores is shorter than the buffer. -/
theorem snprintf_length_lt {size : Nat} (s : CStr) (h : 0 < size) :
    (snprintf size s).length < size := by
  unfold snprintf
  rw [List.length_take]
  omega

/-- C16, as stated, fails when the table already holds the target's IP: with nine
entries for bob's address holding an earlier string, the completion's insertion brings
the bucket to `HASH_BKT_CAPACITY_THRESH` items, the expansion reverses the chain, and
the lookup that follows within the TTL returns the earlier string, not the rendered
string that was just delivered. -/
theorem completion_lookup_finds_older :
    ipinfo_io_whois_callback sample_json_loads true 10
        { sampleIo with cache := nineEntries "203.0.113.5".toList "earlier".toList }
        sampleRequest { errorbuf := none, memory := some "complete-body".toList }
      = some { sampleIo with
          cache := nineEntries "203.0.113.5".toList "earlier".toList
            ++ [{ ip := "203.0.113.5".toList, info := sampleInfo, timestamp := 10 }],
          sent := [(bob.id,
            ":irc.example.org 320 bob bob :is connecting from ".toList ++ sampleInfo)] } ∧
    (find_in_cache 50 100
        (nineEntries "203.0.113.5".toList "earlier".toList
          ++ [{ ip := "203.0.113.5".toList, info := sampleInfo, timestamp := 10 }])
        "203.0.113.5".toList).1
      = some { ip := "203.0.113.5".toList, info := "earlier".toList, timestamp := 0 } ∧
    "earlier".toList ≠ sampleInfo := by
  refine ⟨by decide, by decide, by decide⟩

/-- C16, amended.  On a completion without error whose body parses with `city`,
`region`, `country` and `org` all strings, for a target that is still connected and has
an IP shorter than 46 bytes: the handler returns, the rendered string `R` (the template
cut to 255 bytes) is linked into the cache under the target's IP with the current
time, the line sent ends in `R`, and a `find_in_cache` for that IP at any time `t` with
`t - now ≤ cache_duration` hits with exactly `R` provided the table held no entry for
that IP before or the insertion does not expand the table (it cannot while the table
holds fewer than ten entries). -/
theorem completion_writes_through (json_loads : CStr → Option Json)
    (expand : Bool) (now t : Int)
    (root : Json) (body : CStr) (st : IpinfoIo) (request : OutgoingWebRequest)
    (response : OutgoingWebResponse) (target : Client) (tip : CStr)
    (hcity : json_is_string (json_object_get root "city".toList) = true)
    (hregion : json_is_string (json_object_get root "region".toList) = true)
    (hcountry : json_is_string (json_object_get root "country".toList) = true)
    (horg : json_is_string (json_object_get root "org".toList) = true)
    (hroot : json_loads body = some root)
    (herr : response.errorbuf = none) (hmem : response.memory = some body)
    (hlive : deref st.clients request.callback_data = some target)
    (htip : target.ip = some tip) (htiplen : tip.length < 46)
    (ht : t - now ≤ st.cache_duration) :
    ∃ st1 R,
      ipinfo_io_whois_callback json_loads expand now st request response = some st1 ∧
      R = snprintf 256
        ("City: ".toList ++ json_string_value (json_object_get root "city".toList)
          ++ ", Region: ".toList ++ json_string_value (json_object_get root "region".toList)
          ++ ", Country: ".toList
          ++ json_string_value (json_object_get root "country".toList)
          ++ ", Org: ".toList ++ json_string_value (json_object_get root "org".toList)) ∧
      st1.cache = HASH_ADD_STR expand st.cache { ip := tip, info := R, timestamp := now } ∧
      { ip := tip, info := R, timestamp := now } ∈ st1.cache ∧
      st1.cache_duration = st.cache_duration ∧
      st1.sent = st.sent ++ [(target.id,
        ":".toList ++ st.me_name ++ " 320 ".toList ++ target.name ++ " ".toList
          ++ target.name ++ " :is connecting from ".toList ++ R)] ∧
      (entriesFor st.cache tip = 0 ∨ expand = false ∨ st.cache.length < 9 →
        find_in_cache t st1.cache_duration st1.cache tip
          = (some { ip := tip, info := R, timestamp := now }, st1.cache)) := by
  have hRlen := snprintf_length_lt
    ("City: ".toList ++ json_string_value (json_object_get root "city".toList)
      ++ ", Region: ".toList ++ json_string_value (json_object_get root "region".toList)
      ++ ", Country: ".toList ++ json_string_value (json_object_get root "country".toList)
      ++ ", Org: ".toList ++ json_string_value (json_object_get root "org".toList))
    (by decide : 0 < 256)
  have hnot : ¬ (t - now > st.cache_duration) := by omega
  refine ⟨{ st with
      cache := HASH_ADD_STR expand st.cache
        { ip := tip, timestamp := now, info := snprintf 256 ("City: ".toList
          ++ json_string_value (json_object_get root "city".toList)
          ++ ", Region: ".toList ++ json_string_value (json_object_get root "region".toList)
          ++ ", Country: ".toList
          ++ json_string_value (json_object_get root "country".toList)
          ++ ", Org: ".toList ++ json_string_value (json_object_get root "org".toList)) },
      sent := st.sent ++ [(target.id,
        ":".toList ++ st.me_name ++ " 320 ".toList ++ target.name ++ " ".toList
          ++ target.name ++ " :is connecting from ".toList ++ snprintf 256 ("City: ".toList
          ++ json_string_value (json_object_get root "city".toList)
          ++ ", Region: ".toList ++ json_string_value (json_object_get root "region".toList)
          ++ ", Country: ".toList
          ++ json_string_value (json_object_get root "country".toList)
          ++ ", Org: ".toList ++ json_string_value (json_object_get root "org".toList)))] },
    _, ?_, rfl, ?_, ?_, ?_, ?_, ?_⟩
  · simp only [ipinfo_io_whois_callback, herr, hmem, hroot, hcity, hregion, hcountry, horg,
      hlive, htip, Option.isSome_none, Option.isNone_some, Option.getD_some, add_to_cache,
      htiplen, hRlen, Bool.or_self, Bool.and_self, and_self, if_true]
    simp
  · rfl
  · exact (HASH_ADD_STR_perm expand st.cache _).mem_iff.mpr (List.mem_cons_self _ _)
  · rfl
  · rfl
  · intro hsafe
    have hfind := HASH_FIND_STR_HASH_ADD_STR_self expand st.cache
      { ip := tip, timestamp := now, info := snprintf 256 ("City: ".toList
          ++ json_string_value (json_object_get root "city".toList)
          ++ ", Region: ".toList ++ json_string_value (json_object_get root "region".toList)
          ++ ", Country: ".toList
          ++ json_string_value (json_object_get root "country".toList)
          ++ ", Org: ".toList ++ json_string_value (json_object_get root "org".toList)) }
      hsafe
    simp only at hfind
    simp only [find_in_cache, hfind, hnot, if_false]

/-- C16, amended, on the complete sample response for the request about bob:
completion at 1 on an empty table, lookup at 50, ttl 100. -/
theorem completion_writes_through_witness :
    ∃ st1 R,
      ipinfo_io_whois_callback sample_json_loads true 1 sampleIo sampleRequest
          { errorbuf := none, memory := some "complete-body".toList } = some st1 ∧
      R = snprintf 256
        ("City: ".toList ++ json_string_value (json_object_get sampleRoot "city".toList)
          ++ ", Region: ".toList
          ++ json_string_value (json_object_get sampleRoot "region".toList)
          ++ ", Country: ".toList
          ++ json_string_value (json_object_get sampleRoot "country".toList)
          ++ ", Org: ".toList ++ json_string_value (json_object_get sampleRoot "org".toList)) ∧
      st1.cache = HASH_ADD_STR true sampleIo.cache
        { ip := "203.0.113.5".toList, info := R, timestamp := 1 } ∧
      { ip := "203.0.113.5".toList, info := R, timestamp := 1 } ∈ st1.cache ∧
      st1.cache_duration = sampleIo.cache_duration ∧
      st1.sent = sampleIo.sent ++ [(bob.id,
        ":".toList ++ sampleIo.me_name ++ " 320 ".toList ++ bob.name ++ " ".toList
          ++ bob.name ++ " :is connecting from ".toList ++ R)] ∧
      (entriesFor sampleIo.cache "203.0.113.5".toList = 0 ∨ true = false
          ∨ sampleIo.cache.length < 9 →
        find_in_cache 50 st1.cache_duration st1.cache "203.0.113.5".toList
          = (some { ip := "203.0.113.5".toList, info := R, timestamp := 1 }, st1.cache)) :=
  completion_writes_through sample_json_loads true 1 50 sampleRoot "complete-body".toList
    sampleIo sampleRequest { errorbuf := none, memory := some "complete-body".toList }
    bob "203.0.113.5".toList (by decide) (by decide) (by decide) (by decide) rfl rfl rfl
    (by decide) rfl (by decide) (by decide)

/-- C17. For an operator asking about a target (not U-lined, not a server) whose IP
misses the cache, `ipinfo_io_whois_whois` returns with the reply list unchanged and
nothing sent, having registered exactly one request: method GET, callback
`ipinfo_io_whois_callback`, URL `"https://ipinfo.io/" ++ ip ++ "?token=" ++ apikey`
when that is shorter than 256 bytes. -/
theorem cache_miss_registers_request (now : Int) (st : IpinfoIo) (requester acptr : Client)
    (ip : CStr) (list : NameValuePrioList)
    (hoper : requester.IsOper = true) (huline : acptr.IsULine = false)
    (hserver : acptr.IsServer = false) (hip : acptr.ip = some ip)
    (hmiss : (find_in_cache now st.cache_duration st.cache ip).1 = none)
    (hfit : ("https://ipinfo.io/".toList ++ ip ++ "?token=".toList ++ st.apikey).length
      < 256) :
    ipinfo_io_whois_whois now st requester acptr list
      = some ({ st with
          cache := (find_in_cache now st.cache_duration st.cache ip).2,
          requests := st.requests ++
            [{ url := "https://ipinfo.io/".toList ++ ip ++ "?token=".toList ++ st.apikey,
               http_method := HttpMethod.HTTP_METHOD_GET,
               apicallback := "ipinfo_io_whois_callback".toList,
               callback_data := acptr.id }] }, list) ∧
    (ipinfo_io_whois_whois now st requester acptr list).map (fun r => r.1.sent)
      = some st.sent := by
  have hurl : snprintf 256 (API_URL ++ ip ++ "?token=".toList ++ st.apikey)
      = "https://ipinfo.io/".toList ++ ip ++ "?token=".toList ++ st.apikey :=
    snprintf_fits hfit
  have hres : ipinfo_io_whois_whois now st requester acptr list
      = some ({ st with
          cache := (find_in_cache now st.cache_duration st.cache ip).2,
          requests := st.requests ++
            [{ url := "https://ipinfo.io/".toList ++ ip ++ "?token=".toList ++ st.apikey,
               http_method := HttpMethod.HTTP_METHOD_GET,
               apicallback := "ipinfo_io_whois_callback".toList,
               callback_data := acptr.id }] }, list) := by
    rcases hfc : find_in_cache now st.cache_duration st.cache ip with ⟨r, c⟩
    rw [hfc] at hmiss
    simp only at hmiss
    subst hmiss
    simp only [ipinfo_io_whois_whois, hoper, huline, hserver, hip, hfc, hurl]
    simp
  exact ⟨hres, by rw [hres]; rfl⟩

/-- C17 for alice asking about bob on an empty cache. -/
theorem cache_miss_registers_request_witness :
    ipinfo_io_whois_whois 0 sampleIo alice bob []
      = some ({ sampleIo with
          cache := (find_in_cache 0 sampleIo.cache_duration sampleIo.cache
            "203.0.113.5".toList).2,
          requests := sampleIo.requests ++
            [{ url := "https://ipinfo.io/".toList ++ "203.0.113.5".toList
                 ++ "?token=".toList ++ sampleIo.apikey,
               http_method := HttpMethod.HTTP_METHOD_GET,
               apicallback := "ipinfo_io_whois_callback".toList,
               callback_data := bob.id }] }, []) :=
  (cache_miss_registers_request 0 sampleIo alice bob "203.0.113.5".toList []
    rfl rfl rfl rfl (by decide) (by decide)).1

/-! ## Properties of the load step and of the AFK command -/

/-- C18. Running the load step when the dataset is already loaded calls `MMDB_open` on
nothing and returns `MOD_SUCCESS` with the configuration as it was (`db_loaded` set,
same path); a failed open returns `MOD_FAILED`, reports one error and leaves
`db_loaded` clear; and after a successful open a second run opens nothing and leaves
the ready configuration as it is. -/
theorem citywhois_MOD_LOAD_idempotent (MMDB_open_ok MMDB_open_bad : CStr → Int)
    (cfg cfg0 cfg1 : CityWhoisConfig) (path0 path1 : CStr)
    (hloaded : cfg.db_loaded = true)
    (hpath0 : cfg0.db_path = some path0) (hclear0 : cfg0.db_loaded = false)
    (hbad : MMDB_open_bad path0 ≠ MMDB_SUCCESS)
    (hpath1 : cfg1.db_path = some path1) (hclear1 : cfg1.db_loaded = false)
    (hok : MMDB_open_ok path1 = MMDB_SUCCESS) :
    (∀ MMDB_open : CStr → Int, citywhois_MOD_LOAD MMDB_open cfg
      = { status := MOD_SUCCESS, config := cfg, opened := [], errors := [] }) ∧
    citywhois_MOD_LOAD MMDB_open_bad cfg0
      = { status := MOD_FAILED, config := cfg0, opened := [path0],
          errors := ["CityWhois: Failed to open MaxMind DB".toList] } ∧
    citywhois_MOD_LOAD MMDB_open_ok cfg1
      = { status := MOD_SUCCESS, config := { cfg1 with db_loaded := true },
          opened := [path1], errors := [] } ∧
    (∀ MMDB_open : CStr → Int,
      citywhois_MOD_LOAD MMDB_open (citywhois_MOD_LOAD MMDB_open_ok cfg1).config
        = { status := MOD_SUCCESS, config := { cfg1 with db_loaded := true },
            opened := [], errors := [] }) := by
  have hfirst : citywhois_MOD_LOAD MMDB_open_ok cfg1
      = { status := MOD_SUCCESS, config := { cfg1 with db_loaded := true },
          opened := [path1], errors := [] } := by
    simp [citywhois_MOD_LOAD, hpath1, hclear1, hok]
  refine ⟨?_, ?_, hfirst, ?_⟩
  · intro MMDB_open
    unfold citywhois_MOD_LOAD
    cases hp : cfg.db_path with
    | none => rfl
    | some db_path => simp [hloaded]
  · have hne : (MMDB_open_bad path0 != MMDB_SUCCESS) = true := by simpa using hbad
    simp only [citywhois_MOD_LOAD, hpath0, hclear0, hne]
    simp
  · intro MMDB_open
    rw [hfirst]
    simp [citywhois_MOD_LOAD, hpath1]

/-- C18 on the sample configuration: already loaded, failing open, and open followed by
a second run. -/
theorem citywhois_MOD_LOAD_idempotent_witness :
    citywhois_MOD_LOAD sample_MMDB_open_bad sampleCity
      = { status := MOD_SUCCESS, config := sampleCity, opened := [], errors := [] } ∧
    citywhois_MOD_LOAD sample_MMDB_open_bad sampleCityUnloaded
      = { status := MOD_FAILED, config := sampleCityUnloaded,
          opened := ["/var/lib/GeoLite2-City.mmdb".toList],
          errors := ["CityWhois: Failed to open MaxMind DB".toList] } ∧
    citywhois_MOD_LOAD sample_MMDB_open_ok
        (citywhois_MOD_LOAD sample_MMDB_open_ok sampleCityUnloaded).config
      = { status := MOD_SUCCESS, config := { sampleCityUnloaded with db_loaded := true },
          opened := [], errors := [] } :=
  have h := citywhois_MOD_LOAD_idempotent sample_MMDB_open_ok sample_MMDB_open_bad
    sampleCity sampleCityUnloaded sampleCityUnloaded
    "/var/lib/GeoLite2-City.mmdb".toList "/var/lib/GeoLite2-City.mmdb".toList
    rfl rfl rfl (by decide) rfl rfl rfl
  ⟨h.1 sample_MMDB_open_bad, h.2.1, h.2.2.2 sample_MMDB_open_ok⟩

set_option maxRecDepth 20000 in
/-- C20 at the failing input: a local user sends `AFK-MESSAGE` with a message of exactly
256 characters.  The test `strlen(parv[1]) > MAX_AFK_MESSAGE_LENGTH` lets it through:
the stored message is replaced by it and the notice is "AFK message set.", although
the notice for longer messages asks for a message shorter than 256 characters.  A
message of 257 characters is rejected and leaves the stored message as it was. -/
theorem cmd_afk_message_accepts_256 :
    (List.replicate 256 'x').length = 256 ∧
    cmd_afk_message dave 2 [none, some (List.replicate 256 'x')]
      = some { dave with
          afk_info := some { afk := 1, message := some (List.replicate 256 'x') },
          notices := ["AFK message set.".toList] } ∧
    cmd_afk_message dave 2 [none, some (List.replicate 257 'x')]
      = some { dave with notices :=
          ["AFK message is too long. Please use a message shorter than 256 characters.".toList] }
    := by
  refine ⟨by decide, by decide, by decide⟩

/-! ## Independence of cache entries and size of the rendered string -/

/-- Unlinking an entry with another key does not change what a lookup finds. -/
theorem HASH_FIND_STR_HASH_DEL_other {cache : Cache} {e : CacheEntry} {ip : CStr}
    (h : e.ip ≠ ip) : HASH_FIND_STR (HASH_DEL cache e) ip = HASH_FIND_STR cache ip := by
  induction cache with
  | nil => rfl
  | cons x xs ih =>
    simp only [HASH_DEL, HASH_FIND_STR] at ih ⊢
    by_cases hxe : x = e
    · subst hxe
      simp [List.find?_cons, h]
    · have herase : (x :: xs).erase e = x :: xs.erase e := by
        rw [List.erase_cons]
        simp [hxe]
      rw [herase, List.find?_cons, List.find?_cons, ih]

/-- What `find_in_cache` returns depends on the table only through what
`HASH_FIND_STR` finds for that key. -/
theorem find_in_cache_fst_congr {c1 c2 : Cache} {ip : CStr} (now cache_duration : Int)
    (h : HASH_FIND_STR c1 ip = HASH_FIND_STR c2 ip) :
    (find_in_cache now cache_duration c1 ip).1 = (find_in_cache now cache_duration c2 ip).1 := by
  unfold find_in_cache
  rw [h]
  cases HASH_FIND_STR c2 ip with
  | none => rfl
  | some e =>
    by_cases hx : now - e.timestamp > cache_duration
    · simp [hx]
    · simp [hx]

/-- C21, as stated, fails for an insertion that expands the table: with two entries
for one address (the one holding `A` in front) and nine entries for another address,
the tenth insertion for that other address brings its bucket to
`HASH_BKT_CAPACITY_THRESH` items, the expansion reverses every chain, and the lookup of
the first address then returns the entry holding `B` where it returned `A` before. -/
theorem add_to_cache_expanding_changes_other_lookup :
    (find_in_cache 50 100
        (nineEntries "198.51.100.7".toList "x".toList
          ++ [{ ip := "203.0.113.5".toList, info := "A".toList, timestamp := 5 },
              { ip := "203.0.113.5".toList, info := "B".toList, timestamp := 0 }])
        "203.0.113.5".toList).1
      = some { ip := "203.0.113.5".toList, info := "A".toList, timestamp := 5 } ∧
    (add_to_cache true 10
        (nineEntries "198.51.100.7".toList "x".toList
          ++ [{ ip := "203.0.113.5".toList, info := "A".toList, timestamp := 5 },
              { ip := "203.0.113.5".toList, info := "B".toList, timestamp := 0 }])
        "198.51.100.7".toList "x".toList).map
      (fun c => (find_in_cache 50 100 c "203.0.113.5".toList).1)
      = some (some { ip := "203.0.113.5".toList, info := "B".toList, timestamp := 0 }) ∧
    "198.51.100.7".toList ≠ "203.0.113.5".toList := by
  refine ⟨by decide, by decide, by decide⟩

/-- C21, amended.  For distinct IPs `ip1 ≠ ip2`: a `find_in_cache(ip1)`, whether it
hits, misses or unlinks an expired entry, leaves the result of `find_in_cache(ip2)` at
the same time as it was; an `add_to_cache(ip1, x)` succeeds (for `ip1` shorter than 46
and `x` shorter than 256 bytes) and leaves that result as it was provided the table
holds at most one entry for `ip2` or the insertion does not expand the table (it
cannot while the table holds fewer than ten entries); and a `find_in_cache` that hits
leaves the whole table unchanged. -/
theorem cache_operations_independent (expand : Bool) (cache : Cache) (ip1 ip2 x : CStr)
    (t now cache_duration : Int) (hne : ip1 ≠ ip2)
    (hip : ip1.length < 46) (hx : x.length < 256) :
    (∃ cache1, add_to_cache expand t cache ip1 x = some cache1 ∧
      (entriesFor cache ip2 ≤ 1 ∨ expand = false ∨ cache.length < 9 →
        (find_in_cache now cache_duration cache1 ip2).1
          = (find_in_cache now cache_duration cache ip2).1)) ∧
    (find_in_cache now cache_duration (find_in_cache now cache_duration cache ip1).2 ip2).1
      = (find_in_cache now cache_duration cache ip2).1 ∧
    (∀ (ip : CStr) (e : CacheEntry),
      (find_in_cache now cache_duration cache ip).1 = some e →
        (find_in_cache now cache_duration cache ip).2 = cache) := by
  refine ⟨?_, ?_, ?_⟩
  · refine ⟨HASH_ADD_STR expand cache { ip := ip1, info := x, timestamp := t }, ?_, ?_⟩
    · simp [add_to_cache, hip, hx]
    · intro hsafe
      apply find_in_cache_fst_congr
      have hskip : HASH_FIND_STR ({ ip := ip1, info := x, timestamp := t } :: cache) ip2
          = HASH_FIND_STR cache ip2 := by
        simp [HASH_FIND_STR, List.find?_cons, hne]
      rcases hsafe with h | h
      · have hcount : entriesFor
            (HASH_ADD_STR expand cache { ip := ip1, info := x, timestamp := t }) ip2 ≤ 1 := by
          rw [entriesFor_HASH_ADD_STR]
          unfold entriesFor at h ⊢
          rw [List.countP_cons_of_neg _ _ (by simpa using hne)]
          exact h
        rw [HASH_FIND_STR_perm_of_le_one (HASH_ADD_STR_perm expand cache _) hcount, hskip]
      · rw [HASH_ADD_STR_of_no_expand _ h, hskip]
  · apply find_in_cache_fst_congr
    unfold find_in_cache
    cases hf : HASH_FIND_STR cache ip1 with
    | none => rfl
    | some e =>
      by_cases hexp : now - e.timestamp > cache_duration
      · simp only [hexp, if_true]
        apply HASH_FIND_STR_HASH_DEL_other
        rw [HASH_FIND_STR_key hf]
        exact hne
      · simp [hexp]
  · intro ip e he
    unfold find_in_cache at he ⊢
    cases hf : HASH_FIND_STR cache ip with
    | none => simp [hf] at he
    | some r =>
      by_cases hexp : now - r.timestamp > cache_duration
      · simp [hf, hexp] at he
      · simp [hexp]

/-- C21, amended, on a table holding an expired entry for one address and a fresh one
for another: the lookup that unlinks the first leaves the lookup of the second as it
was. -/
theorem cache_operations_independent_witness :
    (find_in_cache 150 100
        (find_in_cache 150 100
          [{ ip := "203.0.113.5".toList, info := "A".toList, timestamp := 0 },
           { ip := "198.51.100.7".toList, info := "B".toList, timestamp := 100 }]
          "203.0.113.5".toList).2 "198.51.100.7".toList).1
      = (find_in_cache 150 100
          [{ ip := "203.0.113.5".toList, info := "A".toList, timestamp := 0 },
           { ip := "198.51.100.7".toList, info := "B".toList, timestamp := 100 }]
          "198.51.100.7".toList).1 :=
  (cache_operations_independent true
    [{ ip := "203.0.113.5".toList, info := "A".toList, timestamp := 0 },
     { ip := "198.51.100.7".toList, info := "B".toList, timestamp := 100 }]
    "203.0.113.5".toList "198.51.100.7".toList "C".toList 150 150 100
    (by decide) (by decide) (by decide)).2.1

/-- C22. For a parsed response whose `city`, `region`, `country` and `org` are strings
of any length, the string `R` that the handler hands to `add_to_cache` is the template
cut to its first 255 bytes, so it is at most 255 bytes long and fits `info[256]`: with
a target still connected whose IP is shorter than 46 bytes the handler returns with
`R` cached, and it can fault only on an IP of 46 bytes or more, never on `R`. -/
theorem rendered_info_fits (json_loads : CStr → Option Json)
    (expand : Bool) (now : Int)
    (root : Json) (body city region country org : CStr) (st : IpinfoIo)
    (request : OutgoingWebRequest) (response : OutgoingWebResponse)
    (target : Client) (tip : CStr)
    (hcity : json_object_get root "city".toList = some (Json.string city))
    (hregion : json_object_get root "region".toList = some (Json.string region))
    (hcountry : json_object_get root "country".toList = some (Json.string country))
    (horg : json_object_get root "org".toList = some (Json.string org))
    (hroot : json_loads body = some root)
    (herr : response.errorbuf = none) (hmem : response.memory = some body)
    (hlive : deref st.clients request.callback_data = some target)
    (htip : target.ip = some tip) :
    (("City: ".toList ++ city ++ ", Region: ".toList ++ region ++ ", Country: ".toList
        ++ country ++ ", Org: ".toList ++ org).take 255).length ≤ 255 ∧
    (tip.length < 46 →
      (ipinfo_io_whois_callback json_loads expand now st request response).map
          (fun s => s.cache)
        = some (HASH_ADD_STR expand st.cache
            { ip := tip, timestamp := now,
              info := ("City: ".toList ++ city ++ ", Region: ".toList ++ region
                ++ ", Country: ".toList ++ country ++ ", Org: ".toList ++ org).take 255 })) ∧
    (ipinfo_io_whois_callback json_loads expand now st request response = none →
      46 ≤ tip.length) := by
  have hlen : (("City: ".toList ++ city ++ ", Region: ".toList ++ region
      ++ ", Country: ".toList ++ country ++ ", Org: ".toList ++ org).take 255).length
      < 256 := by
    rw [List.length_take]
    omega
  have hR : snprintf 256
      ("City: ".toList ++ json_string_value (some (Json.string city)) ++ ", Region: ".toList
        ++ json_string_value (some (Json.string region)) ++ ", Country: ".toList
        ++ json_string_value (some (Json.string country)) ++ ", Org: ".toList
        ++ json_string_value (some (Json.string org)))
      = ("City: ".toList ++ city ++ ", Region: ".toList ++ region ++ ", Country: ".toList
        ++ country ++ ", Org: ".toList ++ org).take 255 := rfl
  refine ⟨by omega, ?_, ?_⟩
  · intro htiplen
    simp only [ipinfo_io_whois_callback, herr, hmem, hroot, hcity, hregion, hcountry, horg,
      hR, hlive, htip, json_is_string, Option.isSome_none, Option.isNone_some,
      Option.getD_some, add_to_cache, htiplen, hlen]
    simp
  · intro hnone
    by_contra hshort
    have htiplen : tip.length < 46 := by omega
    simp only [ipinfo_io_whois_callback, herr, hmem, hroot, hcity, hregion, hcountry, horg,
      hR, hlive, htip, json_is_string, Option.isSome_none, Option.isNone_some,
      Option.getD_some, add_to_cache, htiplen, hlen] at hnone
    simp at hnone

set_option maxRecDepth 20000 in
/-- C22 on an answer whose organization is 300 bytes long: the cached string is the
first 255 bytes of the template. -/
theorem rendered_info_fits_witness :
    (ipinfo_io_whois_callback sample_json_loads_long false 1 sampleIo sampleRequest
        { errorbuf := none, memory := some "long-body".toList }).map (fun s => s.cache)
      = some ({ ip := "203.0.113.5".toList, timestamp := 1,
                info := ("City: ".toList ++ "Paris".toList ++ ", Region: ".toList
                  ++ "IDF".toList ++ ", Country: ".toList ++ "FR".toList
                  ++ ", Org: ".toList ++ List.replicate 300 'o').take 255 }
          :: sampleIo.cache) :=
  (rendered_info_fits sample_json_loads_long false 1 sampleRootLong "long-body".toList
    "Paris".toList "IDF".toList "FR".toList (List.replicate 300 'o') sampleIo sampleRequest
    { errorbuf := none, memory := some "long-body".toList } bob "203.0.113.5".toList
    rfl rfl rfl rfl rfl rfl rfl (by decide) rfl).2.1 (by decide)

/-! ## The two remote modules handle a response alike -/

/-- Dropping as many items as a list has leaves nothing of its image. -/
theorem drop_length_map_nil {α β : Type} (f : α → β) (l : List α) :
    (l.map f).drop l.length = [] :=
  List.drop_eq_nil_of_le (by simp)

/-- C23. Take the asynchronous handler on a response without error carrying `body`,
for a target still connected, and the synchronous hook after its cache miss and a
successful transfer of the same `body`, both with the same parser, the same table at
that moment and the same clock.  Then both fault or both return, with the same table
afterwards (the same entry with the same rendered string added, or none), and the
lines agree: the handler sends a line exactly when the hook appends one, and the line
sent is `":{me} 320 {name} "` followed by the appended text
`"{name} :is connecting from {rendered}"`. -/
theorem sync_async_same_response_handling (json_loads : CStr → Option Json)
    (expand : Bool)
    (curl_easy_perform : CStr → Option CStr) (now now2 : Int) (body : CStr)
    (st : IpinfoIo) (sst : IpinfoSync) (request : OutgoingWebRequest)
    (response : OutgoingWebResponse) (requester acptr : Client) (ip : CStr)
    (list : NameValuePrioList)
    (herr : response.errorbuf = none) (hmem : response.memory = some body)
    (hlive : deref st.clients request.callback_data = some acptr)
    (hip : acptr.ip = some ip)
    (hoper : requester.IsOper = true) (huline : acptr.IsULine = false)
    (hserver : acptr.IsServer = false)
    (hfind : find_in_cache now sst.cache_duration sst.cache ip = (none, st.cache))
    (hbody : curl_easy_perform
      (snprintf 256 (API_URL ++ ip ++ "?token=".toList ++ sst.apikey)) = some body) :
    (ipinfo_io_whois_callback json_loads expand now2 st request response).map (fun s => s.cache)
      = (ipinfo_whois_whois true curl_easy_perform json_loads expand now now2 sst requester acptr
          list).map (fun r => r.1.cache) ∧
    (ipinfo_io_whois_callback json_loads expand now2 st request response).map
        (fun s => (s.sent.drop st.sent.length).map (fun m => m.2))
      = (ipinfo_whois_whois true curl_easy_perform json_loads expand now now2 sst requester acptr
          list).map
        (fun r => (r.2.drop list.length).map
          (fun e => ":".toList ++ st.me_name ++ " 320 ".toList ++ acptr.name ++ " ".toList
            ++ e.text)) := by
  cases hjl : json_loads body with
  | none =>
    simp only [ipinfo_io_whois_callback, ipinfo_whois_whois, herr, hmem, hjl, hoper, huline,
      hserver, hip, hfind, hbody, Option.isSome_none, Option.isNone_some, Option.getD_some]
    simp [drop_length_map_nil]
  | some root =>
    cases hcond : (json_is_string (json_object_get root "city".toList)
        && json_is_string (json_object_get root "region".toList)
        && json_is_string (json_object_get root "country".toList)
        && json_is_string (json_object_get root "org".toList)) with
    | false =>
      simp only [ipinfo_io_whois_callback, ipinfo_whois_whois, herr, hmem, hjl, hcond, hoper,
        huline, hserver, hip, hfind, hbody, Option.isSome_none, Option.isNone_some,
        Option.getD_some]
      simp [drop_length_map_nil]
    | true =>
      have hRlen := snprintf_length_lt
        ("City: ".toList ++ json_string_value (json_object_get root "city".toList)
          ++ ", Region: ".toList ++ json_string_value (json_object_get root "region".toList)
          ++ ", Country: ".toList
          ++ json_string_value (json_object_get root "country".toList)
          ++ ", Org: ".toList ++ json_string_value (json_object_get root "org".toList))
        (by decide : 0 < 256)
      by_cases hlen : ip.length < 46
      · simp only [ipinfo_io_whois_callback, ipinfo_whois_whois, herr, hmem, hjl, hcond, hoper,
          huline, hserver, hip, hfind, hbody, hlive, Option.isSome_none, Option.isNone_some,
          Option.getD_some, add_to_cache, HASH_ADD_STR, hlen, hRlen, add_nvplist_numeric_fmt]
        simp
      · simp only [ipinfo_io_whois_callback, ipinfo_whois_whois, herr, hmem, hjl, hcond, hoper,
          huline, hserver, hip, hfind, hbody, hlive, Option.isSome_none, Option.isNone_some,
          Option.getD_some, add_to_cache, HASH_ADD_STR, hlen, hRlen, add_nvplist_numeric_fmt]
        simp

/-- C23 on the complete sample response about bob, both tables empty. -/
theorem sync_async_same_response_handling_witness :
    (ipinfo_io_whois_callback sample_json_loads false 1 sampleIo sampleRequest
        { errorbuf := none, memory := some "complete-body".toList }).map (fun s => s.cache)
      = (ipinfo_whois_whois true sample_curl_perform sample_json_loads false 0 1 sampleSync
          alice bob []).map (fun r => r.1.cache) :=
  (sync_async_same_response_handling sample_json_loads false sample_curl_perform 0 1
    "complete-body".toList sampleIo sampleSync sampleRequest
    { errorbuf := none, memory := some "complete-body".toList } alice bob
    "203.0.113.5".toList [] rfl rfl (by decide) rfl rfl rfl rfl (by decide) rfl).1

/-! ## Properties of the ident -/

/-- In the first six positions the loop stores a letter, whatever the byte. -/
theorem ident_char_letter (i byte : Nat) (h : i < 6) : (ident_char i byte).isAlpha = true := by
  unfold ident_char
  simp only [h, if_true]
  have hk : byte % 26 < 26 := Nat.mod_lt _ (by decide)
  generalize byte % 26 = k at hk
  split <;> (interval_cases k <;> rfl)

/-- In the last three positions the loop stores a decimal digit, whatever the byte. -/
theorem ident_char_digit (i byte : Nat) (h : 6 ≤ i) : (ident_char i byte).isDigit = true := by
  unfold ident_char
  have hi : ¬ i < 6 := by omega
  simp only [hi, if_false]
  have hk : byte % 10 < 10 := Nat.mod_lt _ (by decide)
  generalize byte % 10 = k at hk
  interval_cases k <;> rfl

/-- The ident written for a client with an IP and a user record when a key is
configured: the nine characters computed by the loop. -/
theorem set_crypto_ip_based_ident_user (SHA256 : CStr → List Nat) (rand : Nat)
    (stack : Nat → Nat) (cloak_config : CloakConfig) (client : IdentClient) (ip u : CStr)
    (hip : client.ip = some ip) (hu : client.user = some u)
    (hkeys : cloak_config.keys ≠ []) :
    (set_crypto_ip_based_ident SHA256 rand stack cloak_config client).user
      = some ((List.range 9).map (fun i =>
          ident_char i (combined_hash_byte
            (snprintf 97 (ip ++ cloak_config.keys.getD (rand % cloak_config.keys.length) []))
            stack (i % 96)))) := by
  have hlen : (cloak_config.keys.length == 0) = false := by
    cases hk : cloak_config.keys with
    | nil => exact absurd hk hkeys
    | cons k ks => rfl
  simp only [set_crypto_ip_based_ident, hip, hu, hlen, strlcpy, SHA256_DIGEST_LENGTH, USERLEN]
  simp only [Bool.false_eq_true, if_false]
  congr 1

/-- C24. For every client with an IP and a user record and every configuration with at
least one key, whatever the digest, the value of `rand()`, the key picked and the
bytes lying in the buffer, the ident written is exactly 9 characters long, its first
six characters are ASCII letters and its last three are decimal digits. -/
theorem ident_shape (SHA256 : CStr → List Nat) (rand : Nat) (stack : Nat → Nat)
    (cloak_config : CloakConfig) (client : IdentClient) (ip u : CStr)
    (hip : client.ip = some ip) (hu : client.user = some u)
    (hkeys : cloak_config.keys ≠ []) :
    ∃ ident, (set_crypto_ip_based_ident SHA256 rand stack cloak_config client).user
        = some ident ∧
      ident.length = 9 ∧
      (∀ (i : Nat) (c : Char), ident[i]? = some c →
        (i < 6 → c.isAlpha = true) ∧ (6 ≤ i → c.isDigit = true)) := by
  refine ⟨_, set_crypto_ip_based_ident_user SHA256 rand stack cloak_config client ip u
    hip hu hkeys, by simp, ?_⟩
  intro i c hc
  rw [List.getElem?_map] at hc
  cases hr : (List.range 9)[i]? with
  | none => simp [hr] at hc
  | some j =>
    rw [hr] at hc
    have hji : j = i := by
      by_cases hi9 : i < 9
      · rw [List.getElem?_range hi9] at hr
        exact (Option.some.inj hr).symm
      · have hnone : (List.range 9)[i]? = none := by
          apply List.getElem?_eq_none
          simp
          omega
        rw [hnone] at hr
        exact absurd hr (by simp)
    subst hji
    have hcj := (Option.some.inj hc).symm
    subst hcj
    exact ⟨fun h => ident_char_letter _ _ h, fun h => ident_char_digit _ _ h⟩

/-- C24 for a client whose address and key together are shorter than nine bytes, so
that bytes left in the buffer are read. -/
theorem ident_shape_witness :
    ∃ ident, (set_crypto_ip_based_ident sample_SHA256 7 sample_stack
        { keys := ["k".toList] } frank).user = some ident ∧
      ident.length = 9 ∧
      (∀ (i : Nat) (c : Char), ident[i]? = some c →
        (i < 6 → c.isAlpha = true) ∧ (6 ≤ i → c.isDigit = true)) :=
  ident_shape sample_SHA256 7 sample_stack { keys := ["k".toList] } frank
    "::1".toList "frank".toList rfl rfl (by decide)

/-- For an address of nine bytes or more, each byte the loop reads is a byte of the
first nine bytes of the address, whatever follows it in the buffer. -/
theorem combined_hash_byte_of_long_ip (ip key : CStr) (stack : Nat → Nat) (i : Nat)
    (hlen : 9 ≤ ip.length) (hi : i < 9) :
    combined_hash_byte (snprintf 97 (ip ++ key)) stack (i % 96)
      = combined_hash_byte (ip.take 9) (fun _ => 0) i := by
  have hmod : i % 96 = i := Nat.mod_eq_of_lt (by omega)
  have h1 : (snprintf 97 (ip ++ key))[i]? = ip[i]? := by
    unfold snprintf
    rw [List.getElem?_take_of_lt (by omega), List.getElem?_append_left (by omega)]
  have h2 : (ip.take 9)[i]? = ip[i]? := List.getElem?_take_of_lt hi
  have h3 : ip[i]? = some (ip[i]) := List.getElem?_eq_getElem (by omega)
  unfold combined_hash_byte
  rw [hmod, h1, h2, h3]

/-- C25. For client addresses of nine or more characters that share their first nine
characters (in particular for one and the same address), the ident written does not
depend on the configured keys, on the key that `rand()` picks, on the digest or on
what lies in the buffer: two runs write the same ident, which is the one computed
from the first nine bytes of the address alone. -/
theorem ident_independent_of_keys (SHA1 SHA2 : CStr → List Nat) (rand1 rand2 : Nat)
    (stack1 stack2 : Nat → Nat) (config1 config2 : CloakConfig)
    (client1 client2 : IdentClient) (ip1 ip2 u1 u2 : CStr)
    (hip1 : client1.ip = some ip1) (hip2 : client2.ip = some ip2)
    (hu1 : client1.user = some u1) (hu2 : client2.user = some u2)
    (hkeys1 : config1.keys ≠ []) (hkeys2 : config2.keys ≠ [])
    (hlen1 : 9 ≤ ip1.length) (hlen2 : 9 ≤ ip2.length)
    (hshared : ip1.take 9 = ip2.take 9) :
    (set_crypto_ip_based_ident SHA1 rand1 stack1 config1 client1).user
      = (set_crypto_ip_based_ident SHA2 rand2 stack2 config2 client2).user ∧
    (set_crypto_ip_based_ident SHA1 rand1 stack1 config1 client1).user
      = some ((List.range 9).map (fun i =>
          ident_char i (combined_hash_byte (ip1.take 9) (fun _ => 0) i))) := by
  have hrun : ∀ (SHA : CStr → List Nat) (rand : Nat) (stack : Nat → Nat)
      (config : CloakConfig) (client : IdentClient) (ip u : CStr),
      client.ip = some ip → client.user = some u → config.keys ≠ [] → 9 ≤ ip.length →
      (set_crypto_ip_based_ident SHA rand stack config client).user
        = some ((List.range 9).map (fun i =>
            ident_char i (combined_hash_byte (ip.take 9) (fun _ => 0) i))) := by
    intro SHA rand stack config client ip u hip hu hkeys hlen
    rw [set_crypto_ip_based_ident_user SHA rand stack config client ip u hip hu hkeys]
    congr 1
    apply List.map_congr_left
    intro i hi
    rw [combined_hash_byte_of_long_ip ip _ stack i hlen (List.mem_range.mp hi)]
  constructor
  · rw [hrun SHA1 rand1 stack1 config1 client1 ip1 u1 hip1 hu1 hkeys1 hlen1,
      hrun SHA2 rand2 stack2 config2 client2 ip2 u2 hip2 hu2 hkeys2 hlen2, hshared]
  · exact hrun SHA1 rand1 stack1 config1 client1 ip1 u1 hip1 hu1 hkeys1 hlen1

/-- C25 for the address 127.0.0.1 with two different key sets and picks. -/
theorem ident_independent_of_keys_witness :
    (set_crypto_ip_based_ident sample_SHA256 0 sample_stack
        { keys := ["first key".toList] } erin).user
      = (set_crypto_ip_based_ident sample_SHA256 1 (fun _ => 0)
        { keys := ["another".toList, "and one more".toList] } erin).user :=
  (ident_independent_of_keys sample_SHA256 sample_SHA256 0 1 sample_stack (fun _ => 0)
    { keys := ["first key".toList] } { keys := ["another".toList, "and one more".toList] }
    erin erin "127.0.0.1".toList "127.0.0.1".toList "erin".toList "erin".toList
    rfl rfl rfl rfl (by decide) (by decide) (by decide) (by decide) rfl).1

/-! ## Properties of the member listing -/

/-- Joining with a separator, two leading items spelled out. -/
theorem intercalate_cons_cons {α : Type} (sep x y : List α) (r : List (List α)) :
    List.intercalate sep (x :: y :: r) = x ++ sep ++ List.intercalate sep (y :: r) := by
  simp [List.intercalate]

/-- Joining one more item behind a non-empty list appends the separator and the item. -/
theorem intercalate_snoc {α : Type} (sep x : List α) (l : List (List α)) (h : l ≠ []) :
    List.intercalate sep (l ++ [x]) = List.intercalate sep l ++ sep ++ x := by
  induction l with
  | nil => exact absurd rfl h
  | cons a t ih =>
    cases t with
    | nil => simp [List.intercalate]
    | cons b r =>
      have ih1 := ih (by simp)
      rw [List.cons_append, List.cons_append, intercalate_cons_cons, ← List.cons_append, ih1,
        intercalate_cons_cons]
      simp [List.append_assoc]

/-- Names of at most 30 bytes joined with `", "` take at most 32 bytes each, the last
one 30. -/
theorem intercalate_names_length (l : List CStr) (h : ∀ n ∈ l, n.length ≤ 30) :
    (List.intercalate ", ".toList l).length + 2
      ≤ 32 * l.length + 2 * (if l = [] then 1 else 0) := by
  induction l with
  | nil => simp [List.intercalate]
  | cons a t ih =>
    cases t with
    | nil =>
      have := h a (by simp)
      simp [List.intercalate]
      omega
    | cons b r =>
      have ha := h a (by simp)
      have ih1 := ih (fun n hn => h n (List.mem_cons_of_mem _ hn))
      rw [intercalate_cons_cons]
      simp only [List.length_append, List.length_cons] at ih1 ⊢
      simp at ih1 ⊢
      omega

/-- One pass of the loop for an allowed client, when the buffer holds fewer than ten
names of at most 30 bytes joined with `", "`: the name is joined behind them, and the
line is sent and the buffer reset exactly when that makes ten names. -/
theorem sg_loop_body_allowed (allowed : Client → Bool) (s : SgState) (target : Client)
    (pending : List CStr) (hallowed : allowed target = true)
    (hbuf : s.buffer = List.intercalate ", ".toList pending)
    (hcnt : s.nickname_count = pending.length) (hpl : pending.length < 10)
    (hpn : ∀ n ∈ pending, n.length ≤ 30) (hname : target.name.length ≤ 30) :
    sg_loop_body allowed s target
      = if pending.length + 1 ≥ 10 then
          { buffer := [], nickname_count := 0, member_found := true,
            notices := s.notices ++
              ["- ".toList ++ List.intercalate ", ".toList (pending ++ [target.name])] }
        else
          { buffer := List.intercalate ", ".toList (pending ++ [target.name]),
            nickname_count := pending.length + 1, member_found := true,
            notices := s.notices } := by
  have hlenp := intercalate_names_length pending hpn
  have hall : ∀ n ∈ pending ++ [target.name], n.length ≤ 30 := by
    intro n hn
    rcases List.mem_append.mp hn with h | h
    · exact hpn n h
    · rw [List.mem_singleton.mp h]
      exact hname
  have hlen1 := intercalate_names_length (pending ++ [target.name]) hall
  have hne1 : pending ++ [target.name] ≠ [] := by simp
  simp only [hne1, if_false, List.length_append, List.length_singleton] at hlen1
  have hbuffer2 : strlcat
      (if s.nickname_count > 0 then strlcat s.buffer ", ".toList MAX_BUFFER_SIZE else s.buffer)
      target.name MAX_BUFFER_SIZE
      = List.intercalate ", ".toList (pending ++ [target.name]) := by
    cases hp : pending with
    | nil =>
      subst hp
      have hc0 : ¬ s.nickname_count > 0 := by
        rw [hcnt]
        simp
      have hb0 : s.buffer = [] := by
        rw [hbuf]
        rfl
      simp only [hc0, if_false, hb0, strlcat, MAX_BUFFER_SIZE, List.nil_append]
      rw [List.take_of_length_le (by omega)]
      simp [List.intercalate]
    | cons a t =>
      have hcpos : s.nickname_count > 0 := by
        rw [hcnt, hp]
        simp
      have hnonempty : pending ≠ [] := by
        rw [hp]
        simp
      have hsnoc := intercalate_snoc ", ".toList target.name pending hnonempty
      simp only [hnonempty, if_false] at hlenp
      have hsep : (", ".toList : CStr).length = 2 := rfl
      have hl1 : (List.intercalate ", ".toList pending ++ ", ".toList).length ≤ 512 - 1 := by
        rw [List.length_append, hsep]
        omega
      have hl2 : (List.intercalate ", ".toList pending ++ ", ".toList
          ++ target.name).length ≤ 512 - 1 := by
        rw [List.length_append, List.length_append, hsep]
        omega
      simp only [hcpos, if_true, strlcat, MAX_BUFFER_SIZE, hbuf]
      rw [← hp, List.take_of_length_le hl1, List.take_of_length_le hl2, hsnoc]
  have hshort : ¬ (List.intercalate ", ".toList (pending ++ [target.name])).length
      ≥ MAX_BUFFER_SIZE - 50 := by
    simp only [MAX_BUFFER_SIZE]
    omega
  unfold sg_loop_body
  simp only [hallowed, if_true, hbuffer2]
  simp only [hcnt, MAX_NICKNAMES_PER_LINE]
  by_cases hfull : pending.length + 1 ≥ 10
  · simp [hfull]
  · simp only [hfull, hshort, decide_False, Bool.or_self, Bool.false_eq_true, if_false]

/-- The loop over the client list, started with fewer than ten names of at most 30
bytes in the buffer: the lines sent are full groups of ten names, in order, and the
names still in the buffer are the rest. -/
theorem sg_loop_lines (allowed : Client → Bool) (clients : List Client)
    (hnames : ∀ c ∈ clients, c.name.length ≤ 30) :
    ∀ (s : SgState) (pending : List CStr),
      s.buffer = List.intercalate ", ".toList pending →
      s.nickname_count = pending.length → pending.length < 10 →
      (∀ n ∈ pending, n.length ≤ 30) →
      ∃ (chunks : List (List CStr)) (rest : List CStr),
        (clients.foldl (sg_loop_body allowed) s).notices
          = s.notices
            ++ chunks.map (fun l => "- ".toList ++ List.intercalate ", ".toList l) ∧
        pending ++ (clients.filter allowed).map (fun c => c.name) = chunks.flatten ++ rest ∧
        (∀ l ∈ chunks, l.length = 10) ∧
        (clients.foldl (sg_loop_body allowed) s).buffer
          = List.intercalate ", ".toList rest ∧
        (clients.foldl (sg_loop_body allowed) s).nickname_count = rest.length ∧
        rest.length < 10 ∧
        (clients.foldl (sg_loop_body allowed) s).member_found
          = (s.member_found || !(clients.filter allowed).isEmpty) := by
  induction clients with
  | nil =>
    intro s pending hbuf hcnt hpl _
    exact ⟨[], pending, by simp, by simp, by simp, hbuf, hcnt, hpl, by simp⟩
  | cons c cs ih =>
    intro s pending hbuf hcnt hpl hpn
    have hcs : ∀ c1 ∈ cs, c1.name.length ≤ 30 :=
      fun c1 h1 => hnames c1 (List.mem_cons_of_mem _ h1)
    have hc : c.name.length ≤ 30 := hnames c (List.mem_cons_self _ _)
    cases hallowed : allowed c with
    | false =>
      have hstep : sg_loop_body allowed s c = s := by
        simp [sg_loop_body, hallowed]
      obtain ⟨chunks, rest, h1, h2, h3, h4, h5, h6, h7⟩ := ih hcs s pending hbuf hcnt hpl hpn
      refine ⟨chunks, rest, ?_, ?_, h3, ?_, ?_, h6, ?_⟩
      · rw [List.foldl_cons, hstep]
        exact h1
      · rw [List.filter_cons_of_neg (by simp [hallowed])]
        exact h2
      · rw [List.foldl_cons, hstep]
        exact h4
      · rw [List.foldl_cons, hstep]
        exact h5
      · rw [List.foldl_cons, hstep, List.filter_cons_of_neg (by simp [hallowed])]
        exact h7
    | true =>
      have hstep := sg_loop_body_allowed allowed s c pending hallowed hbuf hcnt hpl hpn hc
      have hfilter : (c :: cs).filter allowed = c :: cs.filter allowed :=
        List.filter_cons_of_pos (by simp [hallowed])
      by_cases hfull : pending.length + 1 ≥ 10
      · rw [if_pos hfull] at hstep
        obtain ⟨chunks, rest, h1, h2, h3, h4, h5, h6, h7⟩ :=
          ih hcs (sg_loop_body allowed s c) [] (by rw [hstep]; rfl) (by rw [hstep]; rfl)
            (by decide) (by simp)
        refine ⟨(pending ++ [c.name]) :: chunks, rest, ?_, ?_, ?_, ?_, ?_, h6, ?_⟩
        · rw [List.foldl_cons, h1, hstep]
          simp
        · rw [hfilter, List.map_cons, List.flatten_cons]
          simp only [List.nil_append] at h2
          rw [h2]
          simp
        · intro l hl
          rcases List.mem_cons.mp hl with h | h
          · rw [h, List.length_append, List.length_singleton]
            omega
          · exact h3 l h
        · rw [List.foldl_cons]
          exact h4
        · rw [List.foldl_cons]
          exact h5
        · rw [List.foldl_cons, h7, hstep, hfilter]
          simp
      · rw [if_neg hfull] at hstep
        have hall : ∀ n ∈ pending ++ [c.name], n.length ≤ 30 := by
          intro n hn
          rcases List.mem_append.mp hn with h | h
          · exact hpn n h
          · rw [List.mem_singleton.mp h]
            exact hc
        obtain ⟨chunks, rest, h1, h2, h3, h4, h5, h6, h7⟩ :=
          ih hcs (sg_loop_body allowed s c) (pending ++ [c.name]) (by rw [hstep])
            (by rw [hstep]; simp) (by rw [List.length_append, List.length_singleton]; omega)
            hall
        refine ⟨chunks, rest, ?_, ?_, h3, ?_, ?_, h6, ?_⟩
        · rw [List.foldl_cons, h1, hstep]
        · rw [hfilter, List.map_cons, ← h2]
          simp
        · rw [List.foldl_cons]
          exact h4
        · rw [List.foldl_cons]
          exact h5
        · rw [List.foldl_cons, h7, hstep, hfilter]
          simp

/-- C26. For an existing security group and local clients whose names are at most 30
bytes long, the notices sent are the heading, then the member lines, then the
"has no members" notice exactly when no client is allowed.  The member lines are
`"- "` followed by names joined with `", "`; taken in order they hold exactly the names
of the allowed clients, in client-list order and each once, with at least 1 and at
most 10 names per line. -/
theorem list_members_of_security_group_lines (find_security_group : CStr → Bool)
    (user_allowed_by_security_group_name : Client → CStr → Bool)
    (lclient_list : List Client) (groupname : CStr)
    (hgroup : find_security_group groupname = true)
    (hnames : ∀ c ∈ lclient_list, c.name.length ≤ 30) :
    ∃ lines : List (List CStr),
      lines.flatten
        = (lclient_list.filter
            (fun c => user_allowed_by_security_group_name c groupname)).map
          (fun c => c.name) ∧
      (∀ l ∈ lines, 1 ≤ l.length ∧ l.length ≤ 10) ∧
      list_members_of_security_group find_security_group
          user_allowed_by_security_group_name lclient_list groupname
        = ["Members of security group ".toList ++ groupname ++ ":".toList]
          ++ lines.map (fun l => "- ".toList ++ List.intercalate ", ".toList l)
          ++ (if (lclient_list.filter
                (fun c => user_allowed_by_security_group_name c groupname)).isEmpty
              then ["Security group ".toList ++ groupname ++ " has no members.".toList]
              else []) := by
  obtain ⟨chunks, rest, h1, h2, h3, h4, h5, h6, h7⟩ :=
    sg_loop_lines (fun target => user_allowed_by_security_group_name target groupname)
      lclient_list hnames
      { buffer := [], nickname_count := 0, member_found := false,
        notices := ["Members of security group ".toList ++ groupname ++ ":".toList] }
      [] rfl rfl (by decide) (by simp)
  simp only [List.nil_append, Bool.false_or] at h2 h7
  cases hrest : rest with
  | nil =>
    subst hrest
    simp only [List.append_nil] at h2
    refine ⟨chunks, h2.symm, ?_, ?_⟩
    · intro l hl
      rw [h3 l hl]
      exact ⟨by decide, by decide⟩
    · have hcount : ¬ (List.foldl
          (sg_loop_body fun target => user_allowed_by_security_group_name target groupname)
          { buffer := [], nickname_count := 0, member_found := false,
            notices := ["Members of security group ".toList ++ groupname ++ ":".toList] }
          lclient_list).nickname_count > 0 := by
        rw [h5]
        simp
      simp only [list_members_of_security_group, hgroup, hcount, h1, h7, if_false,
        Bool.not_true, Bool.false_eq_true]
      cases (lclient_list.filter
          (fun c => user_allowed_by_security_group_name c groupname)).isEmpty <;> simp
  | cons r rs =>
    have hpos : (List.foldl
        (sg_loop_body fun target => user_allowed_by_security_group_name target groupname)
        { buffer := [], nickname_count := 0, member_found := false,
          notices := ["Members of security group ".toList ++ groupname ++ ":".toList] }
        lclient_list).nickname_count > 0 := by
      rw [h5, hrest]
      simp
    have hnonempty : (lclient_list.filter
        (fun c => user_allowed_by_security_group_name c groupname)).isEmpty = false := by
      cases hf : lclient_list.filter
          (fun c => user_allowed_by_security_group_name c groupname) with
      | nil =>
        rw [hf, hrest] at h2
        simp at h2
      | cons a t => rfl
    refine ⟨chunks ++ [rest], ?_, ?_, ?_⟩
    · rw [h2]
      simp
    · intro l hl
      rcases List.mem_append.mp hl with h | h
      · rw [h3 l h]
        exact ⟨by decide, by decide⟩
      · rw [List.mem_singleton.mp h]
        constructor
        · rw [hrest]
          simp
        · omega
    · simp only [list_members_of_security_group, hgroup, hpos, h1, h4, h7, hnonempty, if_true,
        Bool.not_true, Bool.not_false, Bool.false_eq_true, if_false]
      simp

/-- C26 for the clients alice, bob and carol and a group that allows the two who are
not operators: one member line, `- bob, carol`. -/
theorem list_members_of_security_group_lines_witness :
    ∃ lines : List (List CStr),
      lines.flatten
        = ([alice, bob, carol].filter
            (fun c => sample_user_allowed c "known-users".toList)).map (fun c => c.name) ∧
      (∀ l ∈ lines, 1 ≤ l.length ∧ l.length ≤ 10) ∧
      list_members_of_security_group sample_find_security_group sample_user_allowed
          [alice, bob, carol] "known-users".toList
        = ["Members of security group ".toList ++ "known-users".toList ++ ":".toList]
          ++ lines.map (fun l => "- ".toList ++ List.intercalate ", ".toList l)
          ++ (if ([alice, bob, carol].filter
                (fun c => sample_user_allowed c "known-users".toList)).isEmpty
              then ["Security group ".toList ++ "known-users".toList
                ++ " has no members.".toList]
              else []) :=
  list_members_of_security_group_lines sample_find_security_group sample_user_allowed
    [alice, bob, carol] "known-users".toList (by decide) (by decide)

end UnrealMods
